import Mathlib

set_option linter.unusedVariables false
set_option maxRecDepth 8000

/- Shallow embedding of the mdrd daemon per-device session manager
   (src/device.c and src/profile.c).

   Pure data (validation, clamping, string tables, the registration and
   reference counters) is translated directly from the C source.  GLib and
   D-Bus side effects (interface export, property updates, signal emission,
   method replies) and libmdr wire submissions are recorded in an explicit
   effect trace.  Whether a libmdr submission is accepted (returns >= 0)
   and which callback a request completes with are oracle parameters,
   following the single-threaded dispatcher contract of the specification:
   callbacks never run synchronously inside the submitting call, and every
   accepted request completes with exactly one success or error callback. -/

/-- The D-Bus interfaces the daemon can attach to one device. -/
inductive Iface
  | device
  | powerOff
  | battery
  | leftRightBattery
  | cradleBattery
  | leftRight
  | noiseCancelling
  | ambientSoundMode
  | eq
  | autoPowerOff
  | keyFunctions
  | playback
deriving DecidableEq

/-- Modelled from the spec: the wire timeout identifiers of
    mdr_packet_system_auto_power_off_element_id_t, a libmdr enum that is
    not part of this repository.  The four identifiers named in device.c
    are kept abstract; `other` stands for any further value the device may
    report (the switch in auto_power_off_timeout_to_string has a default
    arm for those). -/
inductive ApoTimeoutId
  | in5Min
  | in30Min
  | in60Min
  | in180Min
  | other (code : Nat)
deriving DecidableEq

/-- The libmdr submissions device.c performs, by name. -/
inductive WireRequest
  | initHandshake
  | getModelName
  | getBatteryLevel
  | getLeftRightBatteryLevel
  | getCradleBatteryLevel
  | getLeftRightConnectionStatus
  | getNoiseCancellingEnabled
  | getAsmSettings
  | getEqCapabilities
  | getEqPresetAndLevels
  | getAutoPowerOff
  | getAvailableButtonPresets
  | getActiveButtonPresets
  | getPlaybackVolume
  | powerOff
  | ncEnable
  | ncDisable
  | enableAsm (amount : Nat) (voice : Bool)
  | setEqPreset (presetId : Nat)
  | setEqLevels (levels : List Nat)
  | disableAutoPowerOff
  | enableAutoPowerOff (timeout : ApoTimeoutId)
  | setButtonPresets
  | setVolume (volume : Nat)
deriving DecidableEq

/-- Observable side effects of the session manager: D-Bus activity,
    lifecycle signals, wire submissions, log warnings. -/
inductive Effect
  | emitConnected
  | emitDisconnected
  | exportIface (i : Iface)
  | unexportIface (i : Iface)
  | subscribe (i : Iface)
  | propSet (i : Iface)
  | setApoTimeoutProp (timeout : String)
  | setEqLevelsProp (levels : List Nat)
  | setEqPresetProp (preset : String)
  | setAsmProps (amount : Nat) (mode : String)
  | dbusError (name : String)
  | dbusReplyEmpty
  | wire (r : WireRequest)
  | warning
  | closeStream
  | processIO (readable writable : Bool)
deriving DecidableEq

/-- struct device from device.c.  Interface pointers are modelled as
    booleans (false = NULL); eq_presets is the 256-entry name table. -/
structure Device where
  ref_count : Int
  registrations_in_progress : Int
  device_iface : Bool
  power_off_iface : Bool
  battery_iface : Bool
  left_right_battery_iface : Bool
  cradle_battery_iface : Bool
  left_right_iface : Bool
  noise_cancelling_iface : Bool
  ambient_sound_mode_iface : Bool
  eq_iface : Bool
  auto_power_off_iface : Bool
  key_functions_iface : Bool
  playback_iface : Bool
  asm_amount : Nat
  asm_voice : Bool
  eq_band_count : Nat
  eq_level_steps : Nat
  eq_presets : Nat → Option String

/-- The Device value device_add builds before launching the handshake:
    ref_count = 2 (table + poll source), no interfaces, empty preset
    table.  The asm/eq scalar fields are uninitialised in C; they are
    given zero defaults here and are only read after their surface has
    seeded them. -/
def freshDevice : Device where
  ref_count := 2
  registrations_in_progress := 0
  device_iface := false
  power_off_iface := false
  battery_iface := false
  left_right_battery_iface := false
  cradle_battery_iface := false
  left_right_iface := false
  noise_cancelling_iface := false
  ambient_sound_mode_iface := false
  eq_iface := false
  auto_power_off_iface := false
  key_functions_iface := false
  playback_iface := false
  asm_amount := 0
  asm_voice := false
  eq_band_count := 0
  eq_level_steps := 0
  eq_presets := fun _ => none

/-- device_ref from device.c (the g_debug call is dropped). -/
def device_ref (d : Device) : Device :=
  { d with ref_count := d.ref_count + 1 }

/-- device_start_registration from device.c. -/
def device_start_registration (d : Device) : Device :=
  { d with registrations_in_progress := d.registrations_in_progress + 1 }

/-- device_finish_registration from device.c: decrement the counter and
    emit Connected on the device interface when it reaches zero. -/
def device_finish_registration (d : Device) : Device × List Effect :=
  let d1 := { d with registrations_in_progress := d.registrations_in_progress - 1 }
  if d1.registrations_in_progress = 0 then (d1, [Effect.emitConnected]) else (d1, [])

/-- One conditional unexport block of device_unref: the interface is
    unexported when its pointer is non-NULL. -/
def condUnexport (present : Bool) (i : Iface) : List Effect :=
  if present then [Effect.unexportIface i] else []

/-- device_unref from device.c: decrement the reference count; at zero or
    below, emit Disconnected on the device interface, blank its name, and
    unexport the device interface and every capability interface whose
    pointer is non-NULL (in the source order). -/
def device_unref (d : Device) : Device × List Effect :=
  let d1 := { d with ref_count := d.ref_count - 1 }
  if d1.ref_count ≤ 0 then
    (d1, Effect.emitDisconnected :: Effect.propSet .device :: Effect.unexportIface .device ::
      (condUnexport d1.power_off_iface .powerOff
        ++ condUnexport d1.battery_iface .battery
        ++ condUnexport d1.left_right_battery_iface .leftRightBattery
        ++ condUnexport d1.cradle_battery_iface .cradleBattery
        ++ condUnexport d1.left_right_iface .leftRight
        ++ condUnexport d1.noise_cancelling_iface .noiseCancelling
        ++ condUnexport d1.ambient_sound_mode_iface .ambientSoundMode
        ++ condUnexport d1.eq_iface .eq
        ++ condUnexport d1.auto_power_off_iface .autoPowerOff
        ++ condUnexport d1.key_functions_iface .keyFunctions
        ++ condUnexport d1.playback_iface .playback))
  else (d1, [])

/-- device_removed from device.c, the destroy notification of the device
    table: close the stream, destroy the poll source (whose dispose
    function releases the source reference) and release the table
    reference. -/
def device_removed (d : Device) : Device × List Effect :=
  let u1 := device_unref d
  let u2 := device_unref u1.1
  (u2.1, Effect.closeStream :: (u1.2 ++ u2.2))

/-- The process-wide device table (GHashTable keyed by D-Bus name). -/
def DeviceTable : Type := List (String × Device)

/-- g_hash_table_insert: replaces any existing entry for the key. -/
def tableInsert (t : DeviceTable) (name : String) (d : Device) : DeviceTable :=
  (name, d) :: List.filter (fun p => !(p.1 == name)) t

/-- g_hash_table_lookup. -/
def tableLookup (t : DeviceTable) (name : String) : Option Device :=
  (List.find? (fun p => p.1 == name) t).map (fun p => p.2)

/-- device_remove from device.c: g_hash_table_remove, which runs
    device_removed on the stored value when the key is present. -/
def device_remove (t : DeviceTable) (name : String) : DeviceTable × List Effect :=
  match List.find? (fun p => p.1 == name) t with
  | none => (t, [])
  | some p =>
      (List.filter (fun q => !(q.1 == name)) t, (device_removed p.2).2)

/-- Poll revents bits as seen by device_source_dispatch. -/
structure Revents where
  rin : Bool
  rout : Bool
  rerr : Bool
  rhup : Bool

/-- device_source_dispatch from device.c: the session is removed only
    when G_IO_HUP is set (G_IO_ERR alone merely changes the log text);
    otherwise the stream is processed by availability.  The returned
    boolean is true for G_SOURCE_CONTINUE. -/
def device_source_dispatch (t : DeviceTable) (name : String) (r : Revents) :
    DeviceTable × List Effect × Bool :=
  if r.rhup then
    let rem := device_remove t name
    (rem.1, rem.2, false)
  else
    (t, [Effect.processIO r.rin r.rout], true)

/-- A state transformer over one device that also produces effects; the
    shape of every callback in device.c. -/
def MProg : Type := Device → Device × List Effect

/-- Sequential composition of two callbacks (the second runs on the state
    left by the first; effects concatenate in order). -/
def seqM (f g : MProg) : MProg := fun d =>
  ((g (f d).1).1, (f d).2 ++ (g (f d).1).2)

/-- A conditionally executed callback (an if-guarded init call). -/
def iteM (c : Bool) (f : MProg) : MProg := fun d =>
  if c then f d else (d, [])

def isConn : Effect → Bool
  | .emitConnected => true
  | _ => false

def isDisc : Effect → Bool
  | .emitDisconnected => true
  | _ => false

/-- Number of Connected emissions in a trace. -/
def connCount (es : List Effect) : Nat := es.countP isConn

/-- Number of Disconnected emissions in a trace. -/
def discCount (es : List Effect) : Nat := es.countP isDisc

/-- The shared tail of every seeding callback in device.c:
    device_finish_registration followed by device_unref. -/
def finishSeedStep (d : Device) : Device × List Effect :=
  let fr := device_finish_registration d
  let ur := device_unref fr.1
  (ur.1, fr.2 ++ ur.2)

/-- device_ambient_sound_mode_set_amount from device.c: clamp the u32
    argument to 0xff and send it with the cached voice flag; the cached
    pair is not touched. -/
def device_ambient_sound_mode_set_amount (d : Device) (amount : Nat) :
    Device × List Effect :=
  (d, [Effect.wire (.enableAsm (if 0xff < amount then 0xff else amount) d.asm_voice)])

/-- device_ambient_sound_mode_set_mode from device.c: any string other
    than voice and normal is rejected with the bus error
    org.mdr.InvalidASMMode; a valid mode is sent with the cached amount;
    the cached pair is not touched. -/
def device_ambient_sound_mode_set_mode (d : Device) (name : String) :
    Device × List Effect :=
  if name = "voice" then
    (d, [Effect.wire (.enableAsm d.asm_amount true)])
  else if name = "normal" then
    (d, [Effect.wire (.enableAsm d.asm_amount false)])
  else
    (d, [Effect.dbusError "org.mdr.InvalidASMMode"])

/-- device_ambient_sound_mode_update from device.c: a notification caches
    the new pair and, when the interface exists, mirrors it into the
    exposed properties. -/
def device_ambient_sound_mode_update (amount : Nat) (voice : Bool) : MProg := fun d =>
  let d1 := { d with asm_amount := amount, asm_voice := voice }
  (d1,
    if d1.ambient_sound_mode_iface then
      [Effect.setAsmProps amount (if voice then "voice" else "normal")]
    else [])

/-- auto_power_off_timeout_to_string from device.c. -/
def auto_power_off_timeout_to_string (t : ApoTimeoutId) : Option String :=
  match t with
  | .in5Min => some "5 min"
  | .in30Min => some "30 min"
  | .in60Min => some "60 min"
  | .in180Min => some "180 min"
  | .other _ => none

/-- The timeout string device.c exposes for a reported (enabled, timeout)
    pair: Off when disabled, else the named duration, else the
    Unknown placeholder. -/
def apoTimeoutDisplay (enabled : Bool) (t : ApoTimeoutId) : String :=
  if enabled then (auto_power_off_timeout_to_string t).getD "<Unknown>"
  else "Off"

/-- device_auto_power_off_set_timeout from device.c. -/
def device_auto_power_off_set_timeout (d : Device) (timeout : String) :
    Device × List Effect :=
  if timeout = "Off" then
    (d, [Effect.wire .disableAutoPowerOff])
  else if timeout = "5 min" then
    (d, [Effect.wire (.enableAutoPowerOff .in5Min)])
  else if timeout = "30 min" then
    (d, [Effect.wire (.enableAutoPowerOff .in30Min)])
  else if timeout = "60 min" then
    (d, [Effect.wire (.enableAutoPowerOff .in60Min)])
  else if timeout = "180 min" then
    (d, [Effect.wire (.enableAutoPowerOff .in180Min)])
  else
    (d, [Effect.dbusError "org.mdr.InvalidValue"])

/-- device_auto_power_off_update from device.c. -/
def device_auto_power_off_update (enabled : Bool) (t : ApoTimeoutId) : MProg := fun d =>
  (d,
    if d.auto_power_off_iface then [Effect.setApoTimeoutProp (apoTimeoutDisplay enabled t)]
    else [])

/-- Modelled from the spec: mdr_packet_eqebb_get_preset_name, a libmdr
    function that is not part of this repository.  The specification
    lists the human preset names in wire-id order (and its scenario 2
    confirms Rock = 1); identifiers outside the table yield NULL.  The
    exact numeric ids do not matter to any claim, only that the table
    never produces the Unknown placeholder. -/
def mdr_packet_eqebb_get_preset_name (presetId : Nat) : Option String :=
  match presetId with
  | 0 => some "Off"
  | 1 => some "Rock"
  | 2 => some "Pop"
  | 3 => some "Jazz"
  | 4 => some "Dance"
  | 5 => some "EDM"
  | 6 => some "R&B/Hip-Hop"
  | 7 => some "Acoustic"
  | 8 => some "Bright"
  | 9 => some "Excited"
  | 10 => some "Mellow"
  | 11 => some "Relaxed"
  | 12 => some "Vocal"
  | 13 => some "Treble"
  | 14 => some "Bass"
  | 15 => some "Speech"
  | 16 => some "Custom"
  | 17 => some "User Setting 1"
  | 18 => some "User Setting 2"
  | 19 => some "User Setting 3"
  | 20 => some "User Setting 4"
  | 21 => some "User Setting 5"
  | 22 => some "Unspecified"
  | _ => none

/-- device_eq_set_preset from device.c: scan the 256-entry preset table
    for the first id carrying the requested name; no hit returns
    org.mdr.InvalidValue with no wire traffic; a hit submits the set
    request (submitOk models whether mdr_device_set_eq_preset accepts
    it). -/
def device_eq_set_preset (d : Device) (preset : String) (submitOk : Bool) :
    Device × List Effect :=
  match (List.range 0x100).find? (fun i => decide (d.eq_presets i = some preset)) with
  | none => (d, [Effect.dbusError "org.mdr.InvalidValue"])
  | some presetId =>
      if submitOk then (d, [Effect.wire (.setEqPreset presetId)])
      else (d, [Effect.dbusError "org.mdr.DeviceError"])

/-- device_eq_set_levels from device.c: reject a band-count mismatch,
    then reject the first level not below eq_level_steps, both with
    org.mdr.InvalidValue and no wire traffic; otherwise mirror the levels
    into the exposed property and submit the set request. -/
def device_eq_set_levels (d : Device) (levels : List Nat) :
    Device × List Effect :=
  if levels.length ≠ d.eq_band_count then
    (d, [Effect.dbusError "org.mdr.InvalidValue"])
  else if levels.any (fun l => d.eq_level_steps ≤ l) then
    (d, [Effect.dbusError "org.mdr.InvalidValue"])
  else
    (d, (if d.eq_iface then [Effect.setEqLevelsProp levels] else [])
        ++ [Effect.wire (.setEqLevels levels)])

/-- The eq_presets table update loop of
    device_init_eq_get_capabilities_result: each reported preset id whose
    name lookup succeeds is stored under its id. -/
def eqPresetsStore (tbl : Nat → Option String) (ids : List Nat) : Nat → Option String :=
  ids.foldl
    (fun tbl p =>
      match mdr_packet_eqebb_get_preset_name p with
      | none => tbl
      | some name => fun i => if i = p then some name else tbl i)
    tbl

/-- device_init_eq_get_capabilities_result from device.c: cache band
    count, level steps and the preset-name table, then submit the second
    seeding request (get preset and levels).  Its return value is
    ignored: on synchronous failure (phase2Ok = false) no callback will
    ever arrive and the registration opened by device_init_eq is never
    finished. -/
def device_init_eq_get_capabilities_result (bandCount levelSteps : Nat)
    (ids : List Nat) (phase2Ok : Bool) : MProg := fun d =>
  let d1 := { d with
    eq_band_count := bandCount,
    eq_level_steps := levelSteps,
    eq_presets := eqPresetsStore d.eq_presets ids }
  (d1, if phase2Ok then [Effect.wire .getEqPresetAndLevels] else [])

/-- device_init_eq_get_preset_and_levels_result from device.c: create and
    export the EQ interface, seed its properties, subscribe, then finish
    the registration and drop the seeding reference. -/
def device_init_eq_get_preset_and_levels_result (presetId : Nat)
    (levels : List Nat) (exportOk : Bool) : MProg := fun d =>
  let d1 := { d with eq_iface := true }
  let es : List Effect :=
    if exportOk then
      [Effect.exportIface .eq, Effect.propSet .eq,
       Effect.setEqPresetProp ((d1.eq_presets presetId).getD "<Unknown>"),
       Effect.setEqLevelsProp levels, Effect.subscribe .eq]
    else [Effect.warning]
  let fs := finishSeedStep d1
  (fs.1, es ++ fs.2)

/-- device_init_eq_error from device.c. -/
def device_init_eq_error : MProg := fun d =>
  let fs := finishSeedStep d
  (fs.1, Effect.warning :: fs.2)

/-- device_init_battery_success from device.c. -/
def device_init_battery_success (level : Nat) (charging : Bool)
    (exportOk : Bool) : MProg := fun d =>
  let d1 := { d with battery_iface := true }
  let es : List Effect :=
    if exportOk then
      [Effect.exportIface .battery, Effect.propSet .battery, Effect.subscribe .battery]
    else [Effect.warning]
  let fs := finishSeedStep d1
  (fs.1, es ++ fs.2)

/-- device_init_battery_error from device.c. -/
def device_init_battery_error : MProg := fun d =>
  let fs := finishSeedStep d
  (fs.1, Effect.warning :: fs.2)

/-- device_init_left_right_battery_success from device.c. -/
def device_init_left_right_battery_success (leftLevel : Nat) (leftCharging : Bool)
    (rightLevel : Nat) (rightCharging : Bool) (exportOk : Bool) : MProg := fun d =>
  let d1 := { d with left_right_battery_iface := true }
  let es : List Effect :=
    if exportOk then
      [Effect.exportIface .leftRightBattery, Effect.propSet .leftRightBattery,
       Effect.subscribe .leftRightBattery]
    else [Effect.warning]
  let fs := finishSeedStep d1
  (fs.1, es ++ fs.2)

/-- device_init_left_right_battery_error from device.c. -/
def device_init_left_right_battery_error : MProg := fun d =>
  let fs := finishSeedStep d
  (fs.1, Effect.warning :: fs.2)

/-- device_init_cradle_battery_success from device.c. -/
def device_init_cradle_battery_success (level : Nat) (charging : Bool)
    (exportOk : Bool) : MProg := fun d =>
  let d1 := { d with cradle_battery_iface := true }
  let es : List Effect :=
    if exportOk then
      [Effect.exportIface .cradleBattery, Effect.propSet .cradleBattery,
       Effect.subscribe .cradleBattery]
    else [Effect.warning]
  let fs := finishSeedStep d1
  (fs.1, es ++ fs.2)

/-- device_init_cradle_battery_error from device.c. -/
def device_init_cradle_battery_error : MProg := fun d =>
  let fs := finishSeedStep d
  (fs.1, Effect.warning :: fs.2)

/-- device_init_left_right_connection_status_success from device.c. -/
def device_init_left_right_connection_status_success
    (leftConnected rightConnected : Bool) (exportOk : Bool) : MProg := fun d =>
  let d1 := { d with left_right_iface := true }
  let es : List Effect :=
    if exportOk then
      [Effect.exportIface .leftRight, Effect.propSet .leftRight,
       Effect.subscribe .leftRight]
    else [Effect.warning]
  let fs := finishSeedStep d1
  (fs.1, es ++ fs.2)

/-- device_init_left_right_connection_status_error from device.c. -/
def device_init_left_right_connection_status_error : MProg := fun d =>
  let fs := finishSeedStep d
  (fs.1, Effect.warning :: fs.2)

/-- device_init_noise_cancelling_success from device.c. -/
def device_init_noise_cancelling_success (enabled : Bool) (exportOk : Bool) :
    MProg := fun d =>
  let d1 := { d with noise_cancelling_iface := true }
  let es : List Effect :=
    if exportOk then
      [Effect.exportIface .noiseCancelling, Effect.propSet .noiseCancelling,
       Effect.subscribe .noiseCancelling]
    else [Effect.warning]
  let fs := finishSeedStep d1
  (fs.1, es ++ fs.2)

/-- device_init_noise_cancelling_error from device.c. -/
def device_init_noise_cancelling_error : MProg := fun d =>
  let fs := finishSeedStep d
  (fs.1, Effect.warning :: fs.2)

/-- device_init_ambient_sound_mode_success from device.c: the only init
    path that seeds the cached (amount, voice) pair. -/
def device_init_ambient_sound_mode_success (amount : Nat) (voice : Bool)
    (exportOk : Bool) : MProg := fun d =>
  let d1 := { d with
    asm_amount := amount, asm_voice := voice, ambient_sound_mode_iface := true }
  let es : List Effect :=
    if exportOk then
      [Effect.exportIface .ambientSoundMode,
       Effect.setAsmProps amount (if voice then "voice" else "normal"),
       Effect.subscribe .ambientSoundMode]
    else [Effect.warning]
  let fs := finishSeedStep d1
  (fs.1, es ++ fs.2)

/-- device_init_ambient_sound_mode_error from device.c. -/
def device_init_ambient_sound_mode_error : MProg := fun d =>
  let fs := finishSeedStep d
  (fs.1, Effect.warning :: fs.2)

/-- device_init_auto_power_off_result from device.c: create and export
    the interface; on export failure the pointer is reset to NULL. -/
def device_init_auto_power_off_result (enabled : Bool) (timeout : ApoTimeoutId)
    (exportOk : Bool) : MProg := fun d =>
  let d1 :=
    if exportOk then { d with auto_power_off_iface := true }
    else { d with auto_power_off_iface := false }
  let es : List Effect :=
    if exportOk then
      [Effect.exportIface .autoPowerOff, Effect.propSet .autoPowerOff,
       Effect.setApoTimeoutProp (apoTimeoutDisplay enabled timeout),
       Effect.subscribe .autoPowerOff]
    else [Effect.warning]
  let fs := finishSeedStep d1
  (fs.1, es ++ fs.2)

/-- device_init_auto_power_off_error from device.c (it also resets the
    pointer to NULL). -/
def device_init_auto_power_off_error : MProg := fun d =>
  let fs := finishSeedStep { d with auto_power_off_iface := false }
  (fs.1, Effect.warning :: fs.2)

/-- device_init_key_functions_available_result from device.c: submit the
    second seeding request (get active presets); when accepted, create
    the key-functions skeleton and fill its available-presets property
    (the GVariant construction itself is bus-side data and is recorded as
    a property update); when the submission fails synchronously, only a
    warning is logged and the registration opened by
    device_init_key_functions is never finished. -/
def device_init_key_functions_available_result (phase2Ok : Bool) : MProg := fun d =>
  if phase2Ok then
    ({ d with key_functions_iface := true },
     [Effect.wire .getActiveButtonPresets, Effect.propSet .keyFunctions])
  else (d, [Effect.warning])

/-- device_init_key_functions_active_result from device.c: fill the
    current-presets property and export the interface.  On export
    failure the source resets auto_power_off_iface (not the key-functions
    pointer) to NULL - a copy-paste slip kept faithfully here. -/
def device_init_key_functions_active_result (exportOk : Bool) : MProg := fun d =>
  let d1 := if exportOk then d else { d with auto_power_off_iface := false }
  let es : List Effect :=
    Effect.propSet .keyFunctions ::
      (if exportOk then [Effect.exportIface .keyFunctions, Effect.subscribe .keyFunctions]
       else [Effect.warning])
  let fs := finishSeedStep d1
  (fs.1, es ++ fs.2)

/-- device_init_key_functions_error from device.c: release the skeleton
    when it was already created. -/
def device_init_key_functions_error : MProg := fun d =>
  let fs := finishSeedStep { d with key_functions_iface := false }
  (fs.1, Effect.warning :: fs.2)

/-- device_init_playback_result from device.c.  On export failure the
    source resets auto_power_off_iface (not the playback pointer) to
    NULL - a copy-paste slip kept faithfully here. -/
def device_init_playback_result (volume : Nat) (exportOk : Bool) : MProg := fun d =>
  let d1 :=
    if exportOk then { d with playback_iface := true }
    else { d with playback_iface := true, auto_power_off_iface := false }
  let es : List Effect :=
    if exportOk then
      [Effect.exportIface .playback, Effect.propSet .playback, Effect.subscribe .playback]
    else [Effect.warning]
  let fs := finishSeedStep d1
  (fs.1, es ++ fs.2)

/-- device_init_playback_error from device.c: it resets
    auto_power_off_iface (not the playback pointer) to NULL - the same
    copy-paste slip, kept faithfully. -/
def device_init_playback_error : MProg := fun d =>
  let fs := finishSeedStep { d with auto_power_off_iface := false }
  (fs.1, Effect.warning :: fs.2)

/-- device_init_power_off from device.c: the power-off surface issues no
    seeding get-request at all; the interface is created and exported
    immediately during capability discovery. -/
def device_init_power_off (exportOk : Bool) : MProg := fun d =>
  let d1 := { d with power_off_iface := true }
  (d1, if exportOk then [Effect.exportIface .powerOff] else [Effect.warning])

/-- device_init_battery from device.c: when the seeding get is accepted,
    open a registration and take a seeding reference; on synchronous
    failure only a warning is logged. -/
def device_init_battery (submitOk : Bool) : MProg := fun d =>
  if submitOk then
    (device_ref (device_start_registration d), [Effect.wire .getBatteryLevel])
  else (d, [Effect.warning])

/-- device_init_left_right_battery from device.c. -/
def device_init_left_right_battery (submitOk : Bool) : MProg := fun d =>
  if submitOk then
    (device_ref (device_start_registration d), [Effect.wire .getLeftRightBatteryLevel])
  else (d, [Effect.warning])

/-- device_init_cradle_battery from device.c. -/
def device_init_cradle_battery (submitOk : Bool) : MProg := fun d =>
  if submitOk then
    (device_ref (device_start_registration d), [Effect.wire .getCradleBatteryLevel])
  else (d, [Effect.warning])

/-- device_init_left_right_connection_status from device.c. -/
def device_init_left_right_connection_status (submitOk : Bool) : MProg := fun d =>
  if submitOk then
    (device_ref (device_start_registration d),
     [Effect.wire .getLeftRightConnectionStatus])
  else (d, [Effect.warning])

/-- device_init_noise_cancelling from device.c. -/
def device_init_noise_cancelling (submitOk : Bool) : MProg := fun d =>
  if submitOk then
    (device_ref (device_start_registration d), [Effect.wire .getNoiseCancellingEnabled])
  else (d, [Effect.warning])

/-- device_init_ambient_sound_mode from device.c. -/
def device_init_ambient_sound_mode (submitOk : Bool) : MProg := fun d =>
  if submitOk then
    (device_ref (device_start_registration d), [Effect.wire .getAsmSettings])
  else (d, [Effect.warning])

/-- device_init_eq from device.c (first phase: get EQ capabilities). -/
def device_init_eq (submitOk : Bool) : MProg := fun d =>
  if submitOk then
    (device_ref (device_start_registration d), [Effect.wire .getEqCapabilities])
  else (d, [Effect.warning])

/-- device_init_auto_power_off from device.c. -/
def device_init_auto_power_off (submitOk : Bool) : MProg := fun d =>
  if submitOk then
    (device_ref (device_start_registration d), [Effect.wire .getAutoPowerOff])
  else (d, [Effect.warning])

/-- device_init_key_functions from device.c (first phase: get available
    button presets). -/
def device_init_key_functions (submitOk : Bool) : MProg := fun d =>
  if submitOk then
    (device_ref (device_start_registration d), [Effect.wire .getAvailableButtonPresets])
  else (d, [Effect.warning])

/-- device_init_playback from device.c. -/
def device_init_playback (submitOk : Bool) : MProg := fun d =>
  if submitOk then
    (device_ref (device_start_registration d), [Effect.wire .getPlaybackVolume])
  else (d, [Effect.warning])

/-- mdr_device_supported_functions_t: the capability flags discovered
    during the handshake. -/
structure SupportedFunctions where
  power_off : Bool
  battery : Bool
  left_right_battery : Bool
  left_right_connection_status : Bool
  cradle_battery : Bool
  noise_cancelling : Bool
  ambient_sound_mode : Bool
  eq : Bool
  eq_non_customizable : Bool
  auto_power_off : Bool
  assignable_settings : Bool
  playback_controller : Bool
deriving DecidableEq

/-- The ten capabilities that seed themselves with a get-request. -/
inductive SeededCap
  | battery
  | leftRightBattery
  | leftRightConn
  | cradleBattery
  | noiseCancelling
  | ambientSoundMode
  | eq
  | autoPowerOff
  | keyFunctions
  | playback
deriving DecidableEq

/-- The capability-init sequence of device_add_init_name_success, in
    source order; sub says which seeding submissions the dispatcher
    accepts. -/
def runCapInits (sf : SupportedFunctions) (sub : SeededCap → Bool)
    (poExportOk : Bool) : MProg :=
  seqM (iteM sf.power_off (device_init_power_off poExportOk))
    (seqM (iteM sf.battery (device_init_battery (sub .battery)))
      (seqM (iteM sf.left_right_battery
              (device_init_left_right_battery (sub .leftRightBattery)))
        (seqM (iteM sf.left_right_connection_status
                (device_init_left_right_connection_status (sub .leftRightConn)))
          (seqM (iteM sf.cradle_battery
                  (device_init_cradle_battery (sub .cradleBattery)))
            (seqM (iteM sf.noise_cancelling
                    (device_init_noise_cancelling (sub .noiseCancelling)))
              (seqM (iteM sf.ambient_sound_mode
                      (device_init_ambient_sound_mode (sub .ambientSoundMode)))
                (seqM (iteM (sf.eq || sf.eq_non_customizable)
                        (device_init_eq (sub .eq)))
                  (seqM (iteM sf.auto_power_off
                          (device_init_auto_power_off (sub .autoPowerOff)))
                    (seqM (iteM sf.assignable_settings
                            (device_init_key_functions (sub .keyFunctions)))
                      (iteM sf.playback_controller
                        (device_init_playback (sub .playback))))))))))))

/-- Number of registrations opened by the init sequence: one per
    supported capability whose seeding submission was accepted. -/
def startedCount (sf : SupportedFunctions) (sub : SeededCap → Bool) : Int :=
  (if sf.battery then (if sub .battery then (1 : Int) else 0) else 0)
  + ((if sf.left_right_battery then (if sub .leftRightBattery then (1 : Int) else 0) else 0)
  + ((if sf.left_right_connection_status then (if sub .leftRightConn then (1 : Int) else 0) else 0)
  + ((if sf.cradle_battery then (if sub .cradleBattery then (1 : Int) else 0) else 0)
  + ((if sf.noise_cancelling then (if sub .noiseCancelling then (1 : Int) else 0) else 0)
  + ((if sf.ambient_sound_mode then (if sub .ambientSoundMode then (1 : Int) else 0) else 0)
  + ((if (sf.eq || sf.eq_non_customizable) then (if sub .eq then (1 : Int) else 0) else 0)
  + ((if sf.auto_power_off then (if sub .autoPowerOff then (1 : Int) else 0) else 0)
  + ((if sf.assignable_settings then (if sub .keyFunctions then (1 : Int) else 0) else 0)
  + (if sf.playback_controller then (if sub .playback then (1 : Int) else 0) else 0)))))))))

/-- The seeding callbacks that can arrive after capability discovery,
    with their payloads and the outcome oracles they consume. -/
inductive CompletionEv
  | batterySuccess (level : Nat) (charging : Bool) (exportOk : Bool)
  | batteryError
  | lrBatterySuccess (leftLevel : Nat) (leftCharging : Bool)
      (rightLevel : Nat) (rightCharging : Bool) (exportOk : Bool)
  | lrBatteryError
  | lrConnSuccess (leftConnected rightConnected : Bool) (exportOk : Bool)
  | lrConnError
  | cradleSuccess (level : Nat) (charging : Bool) (exportOk : Bool)
  | cradleError
  | ncSuccess (enabled : Bool) (exportOk : Bool)
  | ncError
  | asmSuccess (amount : Nat) (voice : Bool) (exportOk : Bool)
  | asmError
  | eqCapabilitiesResult (bandCount levelSteps : Nat) (ids : List Nat) (phase2Ok : Bool)
  | eqPresetAndLevelsResult (presetId : Nat) (levels : List Nat) (exportOk : Bool)
  | eqError
  | apoResult (enabled : Bool) (timeout : ApoTimeoutId) (exportOk : Bool)
  | apoError
  | kfAvailableResult (phase2Ok : Bool)
  | kfActiveResult (exportOk : Bool)
  | kfError
  | playbackResult (volume : Nat) (exportOk : Bool)
  | playbackError
deriving DecidableEq

/-- Dispatch one seeding callback to its handler in device.c. -/
def applyCompletion (d : Device) : CompletionEv → Device × List Effect
  | .batterySuccess level charging exportOk =>
      device_init_battery_success level charging exportOk d
  | .batteryError => device_init_battery_error d
  | .lrBatterySuccess ll lc rl rc exportOk =>
      device_init_left_right_battery_success ll lc rl rc exportOk d
  | .lrBatteryError => device_init_left_right_battery_error d
  | .lrConnSuccess lc rc exportOk =>
      device_init_left_right_connection_status_success lc rc exportOk d
  | .lrConnError => device_init_left_right_connection_status_error d
  | .cradleSuccess level charging exportOk =>
      device_init_cradle_battery_success level charging exportOk d
  | .cradleError => device_init_cradle_battery_error d
  | .ncSuccess enabled exportOk =>
      device_init_noise_cancelling_success enabled exportOk d
  | .ncError => device_init_noise_cancelling_error d
  | .asmSuccess amount voice exportOk =>
      device_init_ambient_sound_mode_success amount voice exportOk d
  | .asmError => device_init_ambient_sound_mode_error d
  | .eqCapabilitiesResult bandCount levelSteps ids phase2Ok =>
      device_init_eq_get_capabilities_result bandCount levelSteps ids phase2Ok d
  | .eqPresetAndLevelsResult presetId levels exportOk =>
      device_init_eq_get_preset_and_levels_result presetId levels exportOk d
  | .eqError => device_init_eq_error d
  | .apoResult enabled timeout exportOk =>
      device_init_auto_power_off_result enabled timeout exportOk d
  | .apoError => device_init_auto_power_off_error d
  | .kfAvailableResult phase2Ok =>
      device_init_key_functions_available_result phase2Ok d
  | .kfActiveResult exportOk =>
      device_init_key_functions_active_result exportOk d
  | .kfError => device_init_key_functions_error d
  | .playbackResult volume exportOk => device_init_playback_result volume exportOk d
  | .playbackError => device_init_playback_error d

/-- Whether a callback finishes its registration (runs the shared
    device_finish_registration / device_unref tail).  The EQ
    capabilities result and the key-functions available result are the
    intermediate callbacks of the two chained seeds: they do not. -/
def finishesEv : CompletionEv → Bool
  | .eqCapabilitiesResult _ _ _ _ => false
  | .kfAvailableResult _ => false
  | _ => true

/-- Run a sequence of seeding callbacks, concatenating their effects. -/
def runEvs (d : Device) : List CompletionEv → Device × List Effect
  | [] => (d, [])
  | ev :: rest =>
      ((runEvs (applyCompletion d ev).1 rest).1,
       (applyCompletion d ev).2 ++ (runEvs (applyCompletion d ev).1 rest).2)

/-- Number of registration-finishing callbacks in a sequence. -/
def finishTotal (evs : List CompletionEv) : Int :=
  ((evs.countP finishesEv : Nat) : Int)

/-- An event at session level: a seeding callback, or removal of the
    session (RequestDisconnection or HUP). -/
inductive SessEv
  | comp (ev : CompletionEv)
  | remove

/-- Dispatch one session-level event. -/
def applySessEv (d : Device) : SessEv → Device × List Effect
  | .comp ev => applyCompletion d ev
  | .remove => device_removed d

/-- Run a sequence of session-level events. -/
def runSess (d : Device) : List SessEv → Device × List Effect
  | [] => (d, [])
  | ev :: rest =>
      ((runSess (applySessEv d ev).1 rest).1,
       (applySessEv d ev).2 ++ (runSess (applySessEv d ev).1 rest).2)

/-- References released by one session-level event: removal drops the
    source and table references; a finishing callback drops its seeding
    reference; an intermediate callback drops none. -/
def unrefsOf : SessEv → Int
  | .comp ev => if finishesEv ev then 1 else 0
  | .remove => 2

/-- Total references released by a sequence of session-level events. -/
def unrefTotal (evs : List SessEv) : Int :=
  (evs.map unrefsOf).sum

/-- device_add_init_name_success from device.c: export the device
    interface (failure reports back through error_cb, i.e. the profile
    answers org.bluez.Error.Rejected), set the model name, insert the
    session into the device table, answer the pending NewConnection with
    empty success, run the capability-init sequence, and emit Connected
    immediately if it opened no registration.  The returned device is
    the session state the table entry points at. -/
def device_add_init_name_success (t : DeviceTable) (name : String)
    (exportOk : Bool) (sf : SupportedFunctions) (sub : SeededCap → Bool)
    (poExportOk : Bool) (d : Device) : DeviceTable × Device × List Effect :=
  if exportOk then
    let d0 := { d with device_iface := true }
    let r := runCapInits sf sub poExportOk d0
    let fin : List Effect :=
      if r.1.registrations_in_progress = 0 then [Effect.emitConnected] else []
    (tableInsert t name r.1, r.1,
      Effect.exportIface .device :: Effect.propSet .device :: Effect.dbusReplyEmpty ::
        (r.2 ++ fin))
  else
    (t, d, [Effect.dbusError "org.bluez.Error.Rejected"])

/-- The allocation steps of device_add that can fail. -/
inductive AllocStep
  | mallocDeviceFail
  | mallocInitDataFail
  | mdrNewFail
  | allocOk
deriving DecidableEq

/-- device_add from device.c up to launching the handshake: any
    allocation failure reports through error_cb; otherwise the session
    state is created with reference count 2 and mdr_device_init is
    submitted. -/
def device_add (a : AllocStep) : Option Device × List Effect :=
  match a with
  | .allocOk => (some freshDevice, [Effect.wire .initHandshake])
  | _ => (none, [])

/-- How far the handshake gets before the name callback. -/
inductive InitPhase
  | initFail
  | nameFail
  | nameOk (exportOk : Bool)

/-- on_profile_new_connection from profile.c composed with the device_add
    callback chain: no file-descriptor list or a failed allocation answer
    org.bluez.Error.Rejected; a failed handshake or model-name request
    also answers Rejected (device_add_init_error); on the name callback
    device_add_init_name_success runs. -/
def newConnectionRun (t : DeviceTable) (path : String) (hasFds : Bool)
    (a : AllocStep) (ph : InitPhase) (sf : SupportedFunctions)
    (sub : SeededCap → Bool) (poExportOk : Bool) : DeviceTable × List Effect :=
  if !hasFds then (t, [Effect.dbusError "org.bluez.Error.Rejected"])
  else
    match device_add a with
    | (none, es) => (t, es ++ [Effect.dbusError "org.bluez.Error.Rejected"])
    | (some d, es) =>
        match ph with
        | .initFail => (t, es ++ [Effect.dbusError "org.bluez.Error.Rejected"])
        | .nameFail =>
            (t, es ++ [Effect.wire .getModelName,
                       Effect.dbusError "org.bluez.Error.Rejected"])
        | .nameOk exportOk =>
            let r := device_add_init_name_success t path exportOk sf sub poExportOk d
            (r.1, es ++ (Effect.wire .getModelName :: r.2.2))

/-- The device state and effect trace of a session whose identity
    registration succeeded, just after capability discovery. -/
def sessionStart (name : String) (sf : SupportedFunctions)
    (sub : SeededCap → Bool) (poExportOk : Bool) : Device × List Effect :=
  let r := device_add_init_name_success ([] : DeviceTable) name true sf sub poExportOk
             freshDevice
  (r.2.1, r.2.2)

/-- The effect trace of such a session after a prefix of its seeding
    callbacks has run. -/
def sessionTracePrefix (name : String) (sf : SupportedFunctions)
    (sub : SeededCap → Bool) (poExportOk : Bool) (evs : List CompletionEv) :
    List Effect :=
  (sessionStart name sf sub poExportOk).2
    ++ (runEvs (sessionStart name sf sub poExportOk).1 evs).2

/-- The full effect trace of such a session once all its seeding
    callbacks have run. -/
def sessionTrace (name : String) (sf : SupportedFunctions)
    (sub : SeededCap → Bool) (poExportOk : Bool) (evs : List CompletionEv) :
    List Effect :=
  sessionTracePrefix name sf sub poExportOk evs

/-- The compositional invariant of one init step: it raises the
    registration and reference counters by n, emits neither lifecycle
    signal, and reports no bus error. -/
def InitSpec (f : MProg) (n : Int) : Prop :=
  ∀ d, ((f d).1.registrations_in_progress = d.registrations_in_progress + n)
    ∧ ((f d).1.ref_count = d.ref_count + n)
    ∧ connCount (f d).2 = 0
    ∧ discCount (f d).2 = 0
    ∧ (∀ s, Effect.dbusError s ∉ (f d).2)

/-- A trace fragment that neither exposes a capability object nor
    reports an error to a bus client. -/
def noExportNoError (es : List Effect) : Prop :=
  (∀ i, Effect.exportIface i ∉ es) ∧ (∀ s, Effect.dbusError s ∉ es)

/-- A capability set with nothing supported. -/
def sfNone : SupportedFunctions where
  power_off := false
  battery := false
  left_right_battery := false
  left_right_connection_status := false
  cradle_battery := false
  noise_cancelling := false
  ambient_sound_mode := false
  eq := false
  eq_non_customizable := false
  auto_power_off := false
  assignable_settings := false
  playback_controller := false

/-- Only assignable settings (key functions) supported. -/
def sfKeyFunctionsOnly : SupportedFunctions :=
  { sfNone with assignable_settings := true }

/-- Only battery supported. -/
def sfBatteryOnly : SupportedFunctions :=
  { sfNone with battery := true }

/-- Auto power off and playback supported. -/
def sfApoPlayback : SupportedFunctions :=
  { sfNone with auto_power_off := true, playback_controller := true }

/-- Every seeding submission is accepted. -/
def subAll : SeededCap → Bool := fun _ => true

/-- A device whose EQ surface discovered band_count 5, level_steps 21 and
    the presets Off, Rock and Custom (the spec scenario-2 shape). -/
def eqSampleDevice : Device :=
  { freshDevice with
    eq_band_count := 5
    eq_level_steps := 21
    eq_iface := true
    eq_presets := fun i =>
      if i = 0 then some "Off"
      else if i = 1 then some "Rock"
      else if i = 16 then some "Custom"
      else none }

/-- The full effect trace of the session that exhibits the teardown slip:
    auto power off seeds and exports, the playback seed fails (its error
    path clears the auto-power-off pointer), then the session is
    removed. -/
def c2SlipTrace : List Effect :=
  (sessionStart "dev" sfApoPlayback subAll true).2
    ++ (runEvs (sessionStart "dev" sfApoPlayback subAll true).1
          [CompletionEv.apoResult true .in5Min true, CompletionEv.playbackError]).2
    ++ (device_removed
          (runEvs (sessionStart "dev" sfApoPlayback subAll true).1
            [CompletionEv.apoResult true .in5Min true, CompletionEv.playbackError]).1).2

/-- The six strings the auto-power-off surface can expose. -/
def apoDisplayChoices : List String :=
  ["Off", "5 min", "30 min", "60 min", "180 min", "<Unknown>"]

theorem isConn_iff (e : Effect) : isConn e = true ↔ e = .emitConnected := by
  cases e <;> simp [isConn]

theorem isDisc_iff (e : Effect) : isDisc e = true ↔ e = .emitDisconnected := by
  cases e <;> simp [isDisc]

@[simp] theorem connCount_nil : connCount [] = 0 := rfl

@[simp] theorem connCount_append (l1 l2 : List Effect) :
    connCount (l1 ++ l2) = connCount l1 + connCount l2 := by
  simp [connCount, List.countP_append]

@[simp] theorem connCount_cons (e : Effect) (l : List Effect) :
    connCount (e :: l) = connCount l + (if isConn e then 1 else 0) := by
  simp [connCount, List.countP_cons]

@[simp] theorem discCount_nil : discCount [] = 0 := rfl

@[simp] theorem discCount_append (l1 l2 : List Effect) :
    discCount (l1 ++ l2) = discCount l1 + discCount l2 := by
  simp [discCount, List.countP_append]

@[simp] theorem discCount_cons (e : Effect) (l : List Effect) :
    discCount (e :: l) = discCount l + (if isDisc e then 1 else 0) := by
  simp [discCount, List.countP_cons]

@[simp] theorem connCount_condUnexport (c : Bool) (i : Iface) :
    connCount (condUnexport c i) = 0 := by
  cases c <;> simp [condUnexport, isConn]

@[simp] theorem discCount_condUnexport (c : Bool) (i : Iface) :
    discCount (condUnexport c i) = 0 := by
  cases c <;> simp [condUnexport, isDisc]

@[simp] theorem mem_condUnexport (e : Effect) (c : Bool) (i : Iface) :
    e ∈ condUnexport c i ↔ c = true ∧ e = .unexportIface i := by
  cases c <;> simp [condUnexport]

@[simp] theorem unref_fst (d : Device) :
    (device_unref d).1 = { d with ref_count := d.ref_count - 1 } := by
  simp only [device_unref]
  split <;> rfl

@[simp] theorem connCount_unref (d : Device) :
    connCount (device_unref d).2 = 0 := by
  simp only [device_unref]
  split <;> simp [isConn]

@[simp] theorem discCount_unref (d : Device) :
    discCount (device_unref d).2 = if d.ref_count ≤ 1 then 1 else 0 := by
  by_cases h : d.ref_count ≤ 1
  · have h' : d.ref_count - 1 ≤ 0 := by omega
    simp [device_unref, h, h', isDisc]
  · have h' : ¬(d.ref_count - 1 ≤ 0) := by omega
    simp [device_unref, h, h']

theorem mem_unref {e : Effect} {d : Device} (h : e ∈ (device_unref d).2) :
    e = .emitDisconnected ∨ e = .propSet .device ∨ ∃ i, e = .unexportIface i := by
  simp only [device_unref] at h
  split at h
  · simp only [List.mem_cons, List.mem_append, mem_condUnexport] at h
    tauto
  · simp at h

@[simp] theorem finish_fst (d : Device) :
    (device_finish_registration d).1
      = { d with registrations_in_progress := d.registrations_in_progress - 1 } := by
  simp only [device_finish_registration]
  split <;> rfl

@[simp] theorem connCount_finish (d : Device) :
    connCount (device_finish_registration d).2
      = if d.registrations_in_progress = 1 then 1 else 0 := by
  by_cases h : d.registrations_in_progress = 1
  · have h' : d.registrations_in_progress - 1 = 0 := by omega
    simp [device_finish_registration, h, h', isConn]
  · have h' : ¬(d.registrations_in_progress - 1 = 0) := by omega
    simp [device_finish_registration, h, h']

@[simp] theorem discCount_finish (d : Device) :
    discCount (device_finish_registration d).2 = 0 := by
  simp only [device_finish_registration]
  split <;> simp [isDisc]

theorem mem_finish {e : Effect} {d : Device}
    (h : e ∈ (device_finish_registration d).2) : e = .emitConnected := by
  simp only [device_finish_registration] at h
  split at h <;> simp at h
  exact h

@[simp] theorem finishSeedStep_regs (d : Device) :
    (finishSeedStep d).1.registrations_in_progress
      = d.registrations_in_progress - 1 := by
  simp [finishSeedStep]

@[simp] theorem finishSeedStep_ref (d : Device) :
    (finishSeedStep d).1.ref_count = d.ref_count - 1 := by
  simp [finishSeedStep]

@[simp] theorem connCount_finishSeedStep (d : Device) :
    connCount (finishSeedStep d).2
      = if d.registrations_in_progress = 1 then 1 else 0 := by
  simp [finishSeedStep]

@[simp] theorem discCount_finishSeedStep (d : Device) :
    discCount (finishSeedStep d).2 = if d.ref_count ≤ 1 then 1 else 0 := by
  simp [finishSeedStep]

theorem mem_finishSeedStep {e : Effect} {d : Device}
    (h : e ∈ (finishSeedStep d).2) :
    e = .emitConnected ∨ e = .emitDisconnected ∨ e = .propSet .device
      ∨ ∃ i, e = .unexportIface i := by
  simp only [finishSeedStep, List.mem_append] at h
  rcases h with h | h
  · exact Or.inl (mem_finish h)
  · have := mem_unref h
    tauto

theorem applyCompletion_regs (d : Device) (ev : CompletionEv) :
    (applyCompletion d ev).1.registrations_in_progress
      = d.registrations_in_progress - (if finishesEv ev then 1 else 0) := by
  cases ev <;>
    first
      | (rename_i b
         cases b <;>
           simp [applyCompletion, finishesEv,
             device_init_battery_success, device_init_battery_error,
             device_init_left_right_battery_success,
             device_init_left_right_battery_error,
             device_init_cradle_battery_success, device_init_cradle_battery_error,
             device_init_left_right_connection_status_success,
             device_init_left_right_connection_status_error,
             device_init_noise_cancelling_success, device_init_noise_cancelling_error,
             device_init_ambient_sound_mode_success,
             device_init_ambient_sound_mode_error,
             device_init_eq_get_capabilities_result,
             device_init_eq_get_preset_and_levels_result, device_init_eq_error,
             device_init_auto_power_off_result, device_init_auto_power_off_error,
             device_init_key_functions_available_result,
             device_init_key_functions_active_result, device_init_key_functions_error,
             device_init_playback_result, device_init_playback_error])
      | simp [applyCompletion, finishesEv,
          device_init_battery_error, device_init_left_right_battery_error,
          device_init_cradle_battery_error,
          device_init_left_right_connection_status_error,
          device_init_noise_cancelling_error, device_init_ambient_sound_mode_error,
          device_init_eq_error, device_init_auto_power_off_error,
          device_init_key_functions_error, device_init_playback_error]

theorem applyCompletion_ref (d : Device) (ev : CompletionEv) :
    (applyCompletion d ev).1.ref_count
      = d.ref_count - (if finishesEv ev then 1 else 0) := by
  cases ev <;>
    first
      | (rename_i b
         cases b <;>
           simp [applyCompletion, finishesEv,
             device_init_battery_success, device_init_battery_error,
             device_init_left_right_battery_success,
             device_init_left_right_battery_error,
             device_init_cradle_battery_success, device_init_cradle_battery_error,
             device_init_left_right_connection_status_success,
             device_init_left_right_connection_status_error,
             device_init_noise_cancelling_success, device_init_noise_cancelling_error,
             device_init_ambient_sound_mode_success,
             device_init_ambient_sound_mode_error,
             device_init_eq_get_capabilities_result,
             device_init_eq_get_preset_and_levels_result, device_init_eq_error,
             device_init_auto_power_off_result, device_init_auto_power_off_error,
             device_init_key_functions_available_result,
             device_init_key_functions_active_result, device_init_key_functions_error,
             device_init_playback_result, device_init_playback_error])
      | simp [applyCompletion, finishesEv,
          device_init_battery_error, device_init_left_right_battery_error,
          device_init_cradle_battery_error,
          device_init_left_right_connection_status_error,
          device_init_noise_cancelling_error, device_init_ambient_sound_mode_error,
          device_init_eq_error, device_init_auto_power_off_error,
          device_init_key_functions_error, device_init_playback_error]

theorem applyCompletion_conn (d : Device) (ev : CompletionEv) :
    connCount (applyCompletion d ev).2
      = if finishesEv ev then (if d.registrations_in_progress = 1 then 1 else 0)
        else 0 := by
  cases ev <;>
    first
      | (rename_i b
         cases b <;>
           simp [applyCompletion, finishesEv, isConn,
             device_init_battery_success, device_init_battery_error,
             device_init_left_right_battery_success,
             device_init_left_right_battery_error,
             device_init_cradle_battery_success, device_init_cradle_battery_error,
             device_init_left_right_connection_status_success,
             device_init_left_right_connection_status_error,
             device_init_noise_cancelling_success, device_init_noise_cancelling_error,
             device_init_ambient_sound_mode_success,
             device_init_ambient_sound_mode_error,
             device_init_eq_get_capabilities_result,
             device_init_eq_get_preset_and_levels_result, device_init_eq_error,
             device_init_auto_power_off_result, device_init_auto_power_off_error,
             device_init_key_functions_available_result,
             device_init_key_functions_active_result, device_init_key_functions_error,
             device_init_playback_result, device_init_playback_error])
      | simp [applyCompletion, finishesEv, isConn,
          device_init_battery_error, device_init_left_right_battery_error,
          device_init_cradle_battery_error,
          device_init_left_right_connection_status_error,
          device_init_noise_cancelling_error, device_init_ambient_sound_mode_error,
          device_init_eq_error, device_init_auto_power_off_error,
          device_init_key_functions_error, device_init_playback_error]

theorem applyCompletion_disc (d : Device) (ev : CompletionEv) :
    discCount (applyCompletion d ev).2
      = if finishesEv ev then (if d.ref_count ≤ 1 then 1 else 0) else 0 := by
  cases ev <;>
    first
      | (rename_i b
         cases b <;>
           simp [applyCompletion, finishesEv, isDisc,
             device_init_battery_success, device_init_battery_error,
             device_init_left_right_battery_success,
             device_init_left_right_battery_error,
             device_init_cradle_battery_success, device_init_cradle_battery_error,
             device_init_left_right_connection_status_success,
             device_init_left_right_connection_status_error,
             device_init_noise_cancelling_success, device_init_noise_cancelling_error,
             device_init_ambient_sound_mode_success,
             device_init_ambient_sound_mode_error,
             device_init_eq_get_capabilities_result,
             device_init_eq_get_preset_and_levels_result, device_init_eq_error,
             device_init_auto_power_off_result, device_init_auto_power_off_error,
             device_init_key_functions_available_result,
             device_init_key_functions_active_result, device_init_key_functions_error,
             device_init_playback_result, device_init_playback_error])
      | simp [applyCompletion, finishesEv, isDisc,
          device_init_battery_error, device_init_left_right_battery_error,
          device_init_cradle_battery_error,
          device_init_left_right_connection_status_error,
          device_init_noise_cancelling_error, device_init_ambient_sound_mode_error,
          device_init_eq_error, device_init_auto_power_off_error,
          device_init_key_functions_error, device_init_playback_error]

@[simp] theorem finishTotal_nil : finishTotal [] = 0 := rfl

theorem finishTotal_cons (ev : CompletionEv) (evs : List CompletionEv) :
    finishTotal (ev :: evs)
      = finishTotal evs + (if finishesEv ev then 1 else 0) := by
  simp [finishTotal, List.countP_cons, apply_ite]

theorem finishTotal_nonneg (evs : List CompletionEv) : 0 ≤ finishTotal evs := by
  simp [finishTotal]

theorem runEvs_cons (d : Device) (ev : CompletionEv) (rest : List CompletionEv) :
    runEvs d (ev :: rest)
      = ((runEvs (applyCompletion d ev).1 rest).1,
         (applyCompletion d ev).2 ++ (runEvs (applyCompletion d ev).1 rest).2) := rfl

theorem runEvs_conn_nofin (evs : List CompletionEv) :
    ∀ d : Device, finishTotal evs = 0 → connCount (runEvs d evs).2 = 0 := by
  induction evs with
  | nil => intro d h; simp [runEvs]
  | cons ev rest ih =>
    intro d h
    rw [finishTotal_cons] at h
    have hnn := finishTotal_nonneg rest
    by_cases hf : finishesEv ev
    · rw [if_pos hf] at h; omega
    · have hrest : finishTotal rest = 0 := by rw [if_neg hf] at h; omega
      rw [runEvs_cons, connCount_append, applyCompletion_conn, if_neg hf,
        ih _ hrest]

theorem runEvs_conn_zero (evs : List CompletionEv) :
    ∀ d : Device, finishTotal evs < d.registrations_in_progress →
      connCount (runEvs d evs).2 = 0 := by
  induction evs with
  | nil => intro d h; simp [runEvs]
  | cons ev rest ih =>
    intro d h
    rw [finishTotal_cons] at h
    have hnn := finishTotal_nonneg rest
    have hregs := applyCompletion_regs d ev
    rw [runEvs_cons, connCount_append, applyCompletion_conn]
    by_cases hf : finishesEv ev
    · rw [if_pos hf] at h ⊢
      rw [if_pos hf] at hregs
      have hne : ¬ d.registrations_in_progress = 1 := by omega
      rw [if_neg hne, ih _ (by omega)]
    · rw [if_neg hf] at h ⊢
      rw [if_neg hf] at hregs
      rw [ih _ (by omega)]

theorem runEvs_conn_one (evs : List CompletionEv) :
    ∀ d : Device, finishTotal evs = d.registrations_in_progress →
      0 < d.registrations_in_progress → connCount (runEvs d evs).2 = 1 := by
  induction evs with
  | nil => intro d h h0; simp [finishTotal] at h; omega
  | cons ev rest ih =>
    intro d h h0
    rw [finishTotal_cons] at h
    have hnn := finishTotal_nonneg rest
    have hregs := applyCompletion_regs d ev
    rw [runEvs_cons, connCount_append, applyCompletion_conn]
    by_cases hf : finishesEv ev
    · rw [if_pos hf] at h hregs ⊢
      by_cases h0' : finishTotal rest = 0
      · have h1 : d.registrations_in_progress = 1 := by omega
        rw [if_pos h1, runEvs_conn_nofin rest _ h0']
      · have hne : ¬ d.registrations_in_progress = 1 := by omega
        rw [if_neg hne, ih _ (by omega) (by omega)]
    · rw [if_neg hf] at h hregs ⊢
      rw [ih _ (by omega) (by omega)]

@[simp] theorem device_removed_ref (d : Device) :
    (device_removed d).1.ref_count = d.ref_count - 2 := by
  simp [device_removed]
  omega

theorem discCount_removed (d : Device) :
    discCount (device_removed d).2
      = (if d.ref_count ≤ 1 then 1 else 0) + (if d.ref_count ≤ 2 then 1 else 0) := by
  by_cases h1 : d.ref_count ≤ 1
  · have h2 : d.ref_count ≤ 2 := by omega
    have h2' : d.ref_count - 1 ≤ 1 := by omega
    simp [device_removed, isDisc, h1, h2, h2']
  · by_cases h2 : d.ref_count ≤ 2
    · have h2' : d.ref_count - 1 ≤ 1 := by omega
      simp [device_removed, isDisc, h1, h2, h2']
    · have h2' : ¬(d.ref_count - 1 ≤ 1) := by omega
      simp [device_removed, isDisc, h1, h2, h2']

@[simp] theorem unrefTotal_nil : unrefTotal [] = 0 := rfl

theorem unrefTotal_cons (ev : SessEv) (evs : List SessEv) :
    unrefTotal (ev :: evs) = unrefsOf ev + unrefTotal evs := by
  simp [unrefTotal]

theorem unrefsOf_nonneg (ev : SessEv) : 0 ≤ unrefsOf ev := by
  cases ev with
  | comp c => simp [unrefsOf]; split <;> omega
  | remove => simp [unrefsOf]

theorem unrefTotal_nonneg (evs : List SessEv) : 0 ≤ unrefTotal evs := by
  induction evs with
  | nil => simp
  | cons ev rest ih =>
    rw [unrefTotal_cons]
    have := unrefsOf_nonneg ev
    omega

theorem runSess_cons (d : Device) (ev : SessEv) (rest : List SessEv) :
    runSess d (ev :: rest)
      = ((runSess (applySessEv d ev).1 rest).1,
         (applySessEv d ev).2 ++ (runSess (applySessEv d ev).1 rest).2) := rfl

theorem runSess_disc_nofin (evs : List SessEv) :
    ∀ d : Device, unrefTotal evs = 0 → discCount (runSess d evs).2 = 0 := by
  induction evs with
  | nil => intro d h; simp [runSess]
  | cons ev rest ih =>
    intro d h
    rw [unrefTotal_cons] at h
    have hnn := unrefTotal_nonneg rest
    have hev := unrefsOf_nonneg ev
    have hev0 : unrefsOf ev = 0 := by omega
    have hrest : unrefTotal rest = 0 := by omega
    cases ev with
    | comp c =>
      have hf : finishesEv c = false := by
        by_contra hc
        simp [unrefsOf, eq_true_of_ne_false hc] at hev0
      rw [runSess_cons, discCount_append]
      have hd := applyCompletion_disc d c
      rw [hf] at hd
      simp only [applySessEv, if_false, Bool.false_eq_true] at hd ⊢
      rw [hd, ih _ hrest]
    | remove => simp [unrefsOf] at hev0

theorem runSess_disc_zero (evs : List SessEv) :
    ∀ d : Device, unrefTotal evs < d.ref_count →
      discCount (runSess d evs).2 = 0 := by
  induction evs with
  | nil => intro d h; simp [runSess]
  | cons ev rest ih =>
    intro d h
    rw [unrefTotal_cons] at h
    have hnn := unrefTotal_nonneg rest
    rw [runSess_cons, discCount_append]
    cases ev with
    | comp c =>
      have hd := applyCompletion_disc d c
      have hr := applyCompletion_ref d c
      by_cases hf : finishesEv c
      · rw [if_pos hf] at hd hr
        have hu : unrefsOf (SessEv.comp c) = 1 := by simp [unrefsOf, hf]
        rw [hu] at h
        have hne : ¬ d.ref_count ≤ 1 := by omega
        rw [if_neg hne] at hd
        simp only [applySessEv]
        rw [hd, ih _ (by omega)]
      · rw [if_neg hf] at hd hr
        have hu : unrefsOf (SessEv.comp c) = 0 := by simp [unrefsOf, hf]
        rw [hu] at h
        simp only [applySessEv]
        rw [hd, ih _ (by omega)]
    | remove =>
      have hu : unrefsOf SessEv.remove = 2 := rfl
      rw [hu] at h
      have hd := discCount_removed d
      have h1 : ¬ d.ref_count ≤ 1 := by omega
      have h2 : ¬ d.ref_count ≤ 2 := by omega
      rw [if_neg h1, if_neg h2] at hd
      simp only [applySessEv]
      rw [hd, ih _ (by simp only [device_removed_ref]; omega)]

theorem runSess_disc_one (evs : List SessEv) :
    ∀ d : Device, unrefTotal evs = d.ref_count → 0 < d.ref_count →
      discCount (runSess d evs).2 = 1 := by
  induction evs with
  | nil => intro d h h0; simp [unrefTotal] at h; omega
  | cons ev rest ih =>
    intro d h h0
    rw [unrefTotal_cons] at h
    have hnn := unrefTotal_nonneg rest
    rw [runSess_cons, discCount_append]
    cases ev with
    | comp c =>
      have hd := applyCompletion_disc d c
      have hr := applyCompletion_ref d c
      by_cases hf : finishesEv c
      · rw [if_pos hf] at hd hr
        have hu : unrefsOf (SessEv.comp c) = 1 := by simp [unrefsOf, hf]
        rw [hu] at h
        by_cases h0' : unrefTotal rest = 0
        · have h1 : d.ref_count ≤ 1 := by omega
          rw [if_pos h1] at hd
          simp only [applySessEv]
          rw [hd, runSess_disc_nofin rest _ h0']
        · have hne : ¬ d.ref_count ≤ 1 := by omega
          rw [if_neg hne] at hd
          simp only [applySessEv]
          rw [hd, ih _ (by omega) (by omega)]
      · rw [if_neg hf] at hd hr
        have hu : unrefsOf (SessEv.comp c) = 0 := by simp [unrefsOf, hf]
        rw [hu] at h
        simp only [applySessEv]
        rw [hd, ih _ (by omega) (by omega)]
    | remove =>
      have hu : unrefsOf SessEv.remove = 2 := rfl
      rw [hu] at h
      have hd := discCount_removed d
      have href := device_removed_ref d
      by_cases h0' : unrefTotal rest = 0
      · have h1 : ¬ d.ref_count ≤ 1 := by omega
        have h2 : d.ref_count ≤ 2 := by omega
        rw [if_neg h1, if_pos h2] at hd
        simp only [applySessEv]
        rw [hd, runSess_disc_nofin rest _ h0']
      · have h1 : ¬ d.ref_count ≤ 1 := by omega
        have h2 : ¬ d.ref_count ≤ 2 := by omega
        rw [if_neg h1, if_neg h2] at hd
        simp only [applySessEv]
        rw [hd, ih _ (by rw [href]; omega) (by omega)]

theorem initSpec_seq {f g : MProg} {n m : Int}
    (hf : InitSpec f n) (hg : InitSpec g m) : InitSpec (seqM f g) (n + m) := by
  intro d
  obtain ⟨hf1, hf2, hf3, hf4, hf5⟩ := hf d
  obtain ⟨hg1, hg2, hg3, hg4, hg5⟩ := hg (f d).1
  refine ⟨?_, ?_, ?_, ?_, ?_⟩
  · show (g (f d).1).1.registrations_in_progress = _
    omega
  · show (g (f d).1).1.ref_count = _
    omega
  · show connCount ((f d).2 ++ (g (f d).1).2) = 0
    rw [connCount_append, hf3, hg3]
  · show discCount ((f d).2 ++ (g (f d).1).2) = 0
    rw [discCount_append, hf4, hg4]
  · intro s hs
    rw [show (seqM f g d).2 = (f d).2 ++ (g (f d).1).2 from rfl,
      List.mem_append] at hs
    exact hs.elim (hf5 s) (hg5 s)

theorem initSpec_ite {f : MProg} {n : Int} (hf : InitSpec f n) (c : Bool) :
    InitSpec (iteM c f) (if c then n else 0) := by
  intro d
  cases c
  · simp only [iteM, if_neg, Bool.false_eq_true, if_false]
    refine ⟨by omega, by omega, rfl, rfl, by intro s hs; simp at hs⟩
  · simp only [iteM, if_pos, if_true]
    exact hf d

theorem initSpec_power_off (ok : Bool) : InitSpec (device_init_power_off ok) 0 := by
  intro d
  cases ok <;>
    exact ⟨by simp [device_init_power_off],
           by simp [device_init_power_off],
           by simp [device_init_power_off, isConn],
           by simp [device_init_power_off, isDisc],
           by intro s hs; simp [device_init_power_off] at hs⟩

theorem initSpec_battery (ok : Bool) :
    InitSpec (device_init_battery ok) (if ok then 1 else 0) := by
  intro d
  cases ok <;>
    exact ⟨by simp [device_init_battery, device_ref, device_start_registration],
           by simp [device_init_battery, device_ref, device_start_registration],
           by simp [device_init_battery, isConn],
           by simp [device_init_battery, isDisc],
           by intro s hs; simp [device_init_battery] at hs⟩

theorem initSpec_left_right_battery (ok : Bool) :
    InitSpec (device_init_left_right_battery ok) (if ok then 1 else 0) := by
  intro d
  cases ok <;>
    exact ⟨by simp [device_init_left_right_battery, device_ref, device_start_registration],
           by simp [device_init_left_right_battery, device_ref, device_start_registration],
           by simp [device_init_left_right_battery, isConn],
           by simp [device_init_left_right_battery, isDisc],
           by intro s hs; simp [device_init_left_right_battery] at hs⟩

theorem initSpec_left_right_connection_status (ok : Bool) :
    InitSpec (device_init_left_right_connection_status ok) (if ok then 1 else 0) := by
  intro d
  cases ok <;>
    exact ⟨by simp [device_init_left_right_connection_status, device_ref,
             device_start_registration],
           by simp [device_init_left_right_connection_status, device_ref,
             device_start_registration],
           by simp [device_init_left_right_connection_status, isConn],
           by simp [device_init_left_right_connection_status, isDisc],
           by intro s hs; simp [device_init_left_right_connection_status] at hs⟩

theorem initSpec_cradle_battery (ok : Bool) :
    InitSpec (device_init_cradle_battery ok) (if ok then 1 else 0) := by
  intro d
  cases ok <;>
    exact ⟨by simp [device_init_cradle_battery, device_ref, device_start_registration],
           by simp [device_init_cradle_battery, device_ref, device_start_registration],
           by simp [device_init_cradle_battery, isConn],
           by simp [device_init_cradle_battery, isDisc],
           by intro s hs; simp [device_init_cradle_battery] at hs⟩

theorem initSpec_noise_cancelling (ok : Bool) :
    InitSpec (device_init_noise_cancelling ok) (if ok then 1 else 0) := by
  intro d
  cases ok <;>
    exact ⟨by simp [device_init_noise_cancelling, device_ref, device_start_registration],
           by simp [device_init_noise_cancelling, device_ref, device_start_registration],
           by simp [device_init_noise_cancelling, isConn],
           by simp [device_init_noise_cancelling, isDisc],
           by intro s hs; simp [device_init_noise_cancelling] at hs⟩

theorem initSpec_ambient_sound_mode (ok : Bool) :
    InitSpec (device_init_ambient_sound_mode ok) (if ok then 1 else 0) := by
  intro d
  cases ok <;>
    exact ⟨by simp [device_init_ambient_sound_mode, device_ref, device_start_registration],
           by simp [device_init_ambient_sound_mode, device_ref, device_start_registration],
           by simp [device_init_ambient_sound_mode, isConn],
           by simp [device_init_ambient_sound_mode, isDisc],
           by intro s hs; simp [device_init_ambient_sound_mode] at hs⟩

theorem initSpec_eq (ok : Bool) :
    InitSpec (device_init_eq ok) (if ok then 1 else 0) := by
  intro d
  cases ok <;>
    exact ⟨by simp [device_init_eq, device_ref, device_start_registration],
           by simp [device_init_eq, device_ref, device_start_registration],
           by simp [device_init_eq, isConn],
           by simp [device_init_eq, isDisc],
           by intro s hs; simp [device_init_eq] at hs⟩

theorem initSpec_auto_power_off (ok : Bool) :
    InitSpec (device_init_auto_power_off ok) (if ok then 1 else 0) := by
  intro d
  cases ok <;>
    exact ⟨by simp [device_init_auto_power_off, device_ref, device_start_registration],
           by simp [device_init_auto_power_off, device_ref, device_start_registration],
           by simp [device_init_auto_power_off, isConn],
           by simp [device_init_auto_power_off, isDisc],
           by intro s hs; simp [device_init_auto_power_off] at hs⟩

theorem initSpec_key_functions (ok : Bool) :
    InitSpec (device_init_key_functions ok) (if ok then 1 else 0) := by
  intro d
  cases ok <;>
    exact ⟨by simp [device_init_key_functions, device_ref, device_start_registration],
           by simp [device_init_key_functions, device_ref, device_start_registration],
           by simp [device_init_key_functions, isConn],
           by simp [device_init_key_functions, isDisc],
           by intro s hs; simp [device_init_key_functions] at hs⟩

theorem initSpec_playback (ok : Bool) :
    InitSpec (device_init_playback ok) (if ok then 1 else 0) := by
  intro d
  cases ok <;>
    exact ⟨by simp [device_init_playback, device_ref, device_start_registration],
           by simp [device_init_playback, device_ref, device_start_registration],
           by simp [device_init_playback, isConn],
           by simp [device_init_playback, isDisc],
           by intro s hs; simp [device_init_playback] at hs⟩

theorem runCapInits_spec (sf : SupportedFunctions) (sub : SeededCap → Bool)
    (po : Bool) : InitSpec (runCapInits sf sub po) (startedCount sf sub) := by
  have h :=
    initSpec_seq (initSpec_ite (initSpec_power_off po) sf.power_off)
      (initSpec_seq (initSpec_ite (initSpec_battery (sub .battery)) sf.battery)
        (initSpec_seq
          (initSpec_ite (initSpec_left_right_battery (sub .leftRightBattery))
            sf.left_right_battery)
          (initSpec_seq
            (initSpec_ite
              (initSpec_left_right_connection_status (sub .leftRightConn))
              sf.left_right_connection_status)
            (initSpec_seq
              (initSpec_ite (initSpec_cradle_battery (sub .cradleBattery))
                sf.cradle_battery)
              (initSpec_seq
                (initSpec_ite (initSpec_noise_cancelling (sub .noiseCancelling))
                  sf.noise_cancelling)
                (initSpec_seq
                  (initSpec_ite
                    (initSpec_ambient_sound_mode (sub .ambientSoundMode))
                    sf.ambient_sound_mode)
                  (initSpec_seq
                    (initSpec_ite (initSpec_eq (sub .eq))
                      (sf.eq || sf.eq_non_customizable))
                    (initSpec_seq
                      (initSpec_ite (initSpec_auto_power_off (sub .autoPowerOff))
                        sf.auto_power_off)
                      (initSpec_seq
                        (initSpec_ite
                          (initSpec_key_functions (sub .keyFunctions))
                          sf.assignable_settings)
                        (initSpec_ite (initSpec_playback (sub .playback))
                          sf.playback_controller))))))))))
  have he : (if sf.power_off then (0 : Int) else 0)
      + ((if sf.battery then (if sub .battery then (1 : Int) else 0) else 0)
      + ((if sf.left_right_battery then (if sub .leftRightBattery then (1 : Int) else 0) else 0)
      + ((if sf.left_right_connection_status then (if sub .leftRightConn then (1 : Int) else 0) else 0)
      + ((if sf.cradle_battery then (if sub .cradleBattery then (1 : Int) else 0) else 0)
      + ((if sf.noise_cancelling then (if sub .noiseCancelling then (1 : Int) else 0) else 0)
      + ((if sf.ambient_sound_mode then (if sub .ambientSoundMode then (1 : Int) else 0) else 0)
      + ((if (sf.eq || sf.eq_non_customizable) then (if sub .eq then (1 : Int) else 0) else 0)
      + ((if sf.auto_power_off then (if sub .autoPowerOff then (1 : Int) else 0) else 0)
      + ((if sf.assignable_settings then (if sub .keyFunctions then (1 : Int) else 0) else 0)
      + (if sf.playback_controller then (if sub .playback then (1 : Int) else 0) else 0))))))))))
      = startedCount sf sub := by
    rw [ite_self, zero_add]
    rfl
  exact he ▸ h

theorem sessionStart_dev (name : String) (sf : SupportedFunctions)
    (sub : SeededCap → Bool) (po : Bool) :
    (sessionStart name sf sub po).1
      = (runCapInits sf sub po { freshDevice with device_iface := true }).1 := rfl

theorem sessionStart_effects (name : String) (sf : SupportedFunctions)
    (sub : SeededCap → Bool) (po : Bool) :
    (sessionStart name sf sub po).2
      = Effect.exportIface .device :: Effect.propSet .device :: Effect.dbusReplyEmpty ::
          ((runCapInits sf sub po { freshDevice with device_iface := true }).2
            ++ (if (runCapInits sf sub po
                      { freshDevice with device_iface := true }).1.registrations_in_progress
                    = 0
                then [Effect.emitConnected] else [])) := rfl

theorem sessionStart_regs (name : String) (sf : SupportedFunctions)
    (sub : SeededCap → Bool) (po : Bool) :
    (sessionStart name sf sub po).1.registrations_in_progress
      = startedCount sf sub := by
  rw [sessionStart_dev,
    (runCapInits_spec sf sub po { freshDevice with device_iface := true }).1]
  simp [freshDevice]

theorem sessionStart_ref (name : String) (sf : SupportedFunctions)
    (sub : SeededCap → Bool) (po : Bool) :
    (sessionStart name sf sub po).1.ref_count = 2 + startedCount sf sub := by
  rw [sessionStart_dev,
    (runCapInits_spec sf sub po { freshDevice with device_iface := true }).2.1]
  simp [freshDevice]

theorem sessionStart_conn (name : String) (sf : SupportedFunctions)
    (sub : SeededCap → Bool) (po : Bool) :
    connCount (sessionStart name sf sub po).2
      = if startedCount sf sub = 0 then 1 else 0 := by
  obtain ⟨h1, h2, h3, h4, h5⟩ :=
    runCapInits_spec sf sub po { freshDevice with device_iface := true }
  have hreg : (runCapInits sf sub po
      { freshDevice with device_iface := true }).1.registrations_in_progress
        = startedCount sf sub := by
    rw [h1]; simp [freshDevice]
  rw [sessionStart_effects]
  simp only [connCount_cons, connCount_append, h3, hreg]
  by_cases h : startedCount sf sub = 0 <;> simp [h, isConn]

theorem sessionStart_noerr (name : String) (sf : SupportedFunctions)
    (sub : SeededCap → Bool) (po : Bool) (s : String) :
    Effect.dbusError s ∉ (sessionStart name sf sub po).2 := by
  obtain ⟨h1, h2, h3, h4, h5⟩ :=
    runCapInits_spec sf sub po { freshDevice with device_iface := true }
  rw [sessionStart_effects]
  intro hmem
  simp only [List.mem_cons, List.mem_append] at hmem
  rcases hmem with h | h | h | h | h
  · exact absurd h (by simp)
  · exact absurd h (by simp)
  · exact absurd h (by simp)
  · exact h5 s h
  · revert h
    split <;> simp

/-- C1 (amended): for every session whose identity registration
    succeeded, if every seeding operation that capability discovery
    started eventually finishes (its callbacks arrive, in any order, and
    no second-phase submission of the EQ or key-functions seed is
    rejected synchronously), then Connected is emitted exactly once over
    the whole session trace, and never before the last seeding operation
    has finished; when no seeding operation was started it is emitted
    immediately after capability discovery. -/
theorem c1_connected_once (name : String) (sf : SupportedFunctions)
    (sub : SeededCap → Bool) (po : Bool) (evs : List CompletionEv)
    (hAll : finishTotal evs = startedCount sf sub) :
    connCount (sessionTrace name sf sub po evs) = 1
    ∧ ∀ p q, evs = p ++ q → finishTotal p < finishTotal evs →
        connCount (sessionTracePrefix name sf sub po p) = 0 := by
  have hregs := sessionStart_regs name sf sub po
  have hconn := sessionStart_conn name sf sub po
  constructor
  · simp only [sessionTrace, sessionTracePrefix]
    rw [connCount_append, hconn]
    by_cases h0 : startedCount sf sub = 0
    · rw [if_pos h0, runEvs_conn_nofin _ _ (by omega)]
    · rw [if_neg h0]
      have hnn := finishTotal_nonneg evs
      rw [runEvs_conn_one _ _ (by omega) (by omega)]
  · intro p q hpq hlt
    simp only [sessionTracePrefix]
    rw [connCount_append, hconn]
    have hnn := finishTotal_nonneg p
    have h0 : ¬ startedCount sf sub = 0 := by omega
    rw [if_neg h0, runEvs_conn_zero _ _ (by omega)]

theorem c1_connected_once_witness :
    connCount (sessionTrace "dev" sfBatteryOnly subAll true
      [CompletionEv.batterySuccess 50 false true]) = 1 :=
  (c1_connected_once "dev" sfBatteryOnly subAll true
    [CompletionEv.batterySuccess 50 false true] (by decide)).1

/-- C1 counterexample: a device supporting only assignable settings; the
    available-presets seed is accepted (one registration opened), its
    result callback arrives, but the follow-up get-active-presets
    submission is rejected synchronously.  Every seeding get-request has
    now succeeded or failed, the trace is complete, yet Connected was
    never emitted: the registration counter is stuck at one. -/
theorem c1_counterexample :
    connCount (sessionTrace "dev" sfKeyFunctionsOnly subAll true
      [CompletionEv.kfAvailableResult false]) = 0 := by decide

/-- C5 (amended): a session starts with reference count 2, capability
    discovery leaves it at 2 plus one reference per started seeding
    operation, a registration-finishing callback releases exactly one
    reference (the intermediate callback of the two chained seeds, EQ
    capabilities and key-functions available presets, releases none: one
    reference covers the whole chain), and the teardown side effects run
    exactly once, only after the table reference, the source reference
    and every outstanding seeding reference have been released. -/
theorem c5_refcounting (d : Device) (ev : CompletionEv) (evs : List SessEv)
    (name : String) (sf : SupportedFunctions) (sub : SeededCap → Bool) (po : Bool)
    (hTotal : unrefTotal evs = d.ref_count) (hPos : 0 < d.ref_count) :
    freshDevice.ref_count = 2
    ∧ (sessionStart name sf sub po).1.ref_count = 2 + startedCount sf sub
    ∧ (applyCompletion d ev).1.ref_count
        = d.ref_count - (if finishesEv ev then 1 else 0)
    ∧ discCount (runSess d evs).2 = 1
    ∧ (∀ p q, evs = p ++ q → unrefTotal p < unrefTotal evs →
        discCount (runSess d p).2 = 0) := by
  refine ⟨rfl, sessionStart_ref name sf sub po, applyCompletion_ref d ev,
    runSess_disc_one evs d hTotal hPos, ?_⟩
  intro p q hpq hlt
  exact runSess_disc_zero p d (by omega)

theorem c5_refcounting_witness :
    discCount (runSess { freshDevice with ref_count := 3 }
      [SessEv.comp CompletionEv.batteryError, SessEv.remove]).2 = 1 :=
  (c5_refcounting { freshDevice with ref_count := 3 } CompletionEv.batteryError
    [SessEv.comp CompletionEv.batteryError, SessEv.remove]
    "dev" sfBatteryOnly subAll true (by decide) (by decide)).2.2.2.1

/-- C5 counterexample: the success completion of the EQ capabilities
    seeding request (a seeding request issued by the session on its own
    behalf) releases no reference at all - the reference count is
    unchanged - because the single reference taken by device_init_eq is
    only released by the completion of the chained follow-up request. -/
theorem c5_counterexample :
    (applyCompletion { freshDevice with ref_count := 5 }
      (CompletionEv.eqCapabilitiesResult 5 10 [0, 1] true)).1.ref_count = 5 := by
  decide

/-- C2 evaluation at the failing input: a session supporting auto power
    off and playback; auto power off seeds and its interface is exported;
    the playback seed fails, and its error path clears the
    auto-power-off pointer (a copy-paste slip in
    device_init_playback_error); the session is then removed.
    Disconnected is emitted, but the exported AutoPowerOff interface is
    never unexported.  The last conjunct shows the second divergence:
    dispatch with G_IO_ERR but not G_IO_HUP does not remove the
    session. -/
theorem c2_teardown_slip :
    Effect.exportIface .autoPowerOff ∈ c2SlipTrace
    ∧ Effect.unexportIface .autoPowerOff ∉ c2SlipTrace
    ∧ Effect.emitDisconnected ∈ c2SlipTrace
    ∧ (device_remove [("dev", freshDevice)] "dev").1 = ([] : DeviceTable)
    ∧ discCount (device_remove [("dev", freshDevice)] "dev").2 = 1
    ∧ (∀ (t : DeviceTable) (nm : String) (rin rout : Bool),
        (device_source_dispatch t nm ⟨rin, rout, true, false⟩).1 = t) := by
  refine ⟨by decide, by decide, by decide, rfl, by decide, ?_⟩
  intro t nm rin rout
  rfl

theorem noExportNoError_fs (d : Device) : noExportNoError (finishSeedStep d).2 := by
  constructor
  · intro i h
    rcases mem_finishSeedStep h with h | h | h | ⟨j, h⟩ <;> simp at h
  · intro s h
    rcases mem_finishSeedStep h with h | h | h | ⟨j, h⟩ <;> simp at h

theorem noExportNoError_append {l1 l2 : List Effect}
    (h1 : noExportNoError l1) (h2 : noExportNoError l2) :
    noExportNoError (l1 ++ l2) := by
  constructor
  · intro i h
    rcases List.mem_append.mp h with h | h
    · exact h1.1 i h
    · exact h2.1 i h
  · intro s h
    rcases List.mem_append.mp h with h | h
    · exact h1.2 s h
    · exact h2.2 s h

theorem noExportNoError_warning : noExportNoError [Effect.warning] :=
  ⟨fun i h => by simp at h, fun s h => by simp at h⟩

/-- C3 (amended): every capability that seeds itself with a get-request
    (all of them except power off) exposes its remotable object only via
    the success path of that request: a synchronous submission failure, a
    seeding error callback, and a failed bus export each leave the
    capability without an exported object and report nothing to any bus
    client; the success callback with a working bus export is the one
    place the object is exported.  The intermediate callbacks of the two
    chained seeds export nothing either. -/
theorem c3_seed_gates_export (d : Device) :
    (noExportNoError ((device_init_battery false) d).2
      ∧ noExportNoError (device_init_battery_error d).2
      ∧ (∀ level charging,
          noExportNoError (device_init_battery_success level charging false d).2)
      ∧ (∀ level charging,
          Effect.exportIface .battery
            ∈ (device_init_battery_success level charging true d).2))
    ∧ (noExportNoError ((device_init_left_right_battery false) d).2
      ∧ noExportNoError (device_init_left_right_battery_error d).2
      ∧ (∀ ll lc rl rc,
          noExportNoError
            (device_init_left_right_battery_success ll lc rl rc false d).2)
      ∧ (∀ ll lc rl rc,
          Effect.exportIface .leftRightBattery
            ∈ (device_init_left_right_battery_success ll lc rl rc true d).2))
    ∧ (noExportNoError ((device_init_left_right_connection_status false) d).2
      ∧ noExportNoError (device_init_left_right_connection_status_error d).2
      ∧ (∀ lc rc,
          noExportNoError
            (device_init_left_right_connection_status_success lc rc false d).2)
      ∧ (∀ lc rc,
          Effect.exportIface .leftRight
            ∈ (device_init_left_right_connection_status_success lc rc true d).2))
    ∧ (noExportNoError ((device_init_cradle_battery false) d).2
      ∧ noExportNoError (device_init_cradle_battery_error d).2
      ∧ (∀ level charging,
          noExportNoError
            (device_init_cradle_battery_success level charging false d).2)
      ∧ (∀ level charging,
          Effect.exportIface .cradleBattery
            ∈ (device_init_cradle_battery_success level charging true d).2))
    ∧ (noExportNoError ((device_init_noise_cancelling false) d).2
      ∧ noExportNoError (device_init_noise_cancelling_error d).2
      ∧ (∀ enabled,
          noExportNoError (device_init_noise_cancelling_success enabled false d).2)
      ∧ (∀ enabled,
          Effect.exportIface .noiseCancelling
            ∈ (device_init_noise_cancelling_success enabled true d).2))
    ∧ (noExportNoError ((device_init_ambient_sound_mode false) d).2
      ∧ noExportNoError (device_init_ambient_sound_mode_error d).2
      ∧ (∀ amount voice,
          noExportNoError
            (device_init_ambient_sound_mode_success amount voice false d).2)
      ∧ (∀ amount voice,
          Effect.exportIface .ambientSoundMode
            ∈ (device_init_ambient_sound_mode_success amount voice true d).2))
    ∧ (noExportNoError ((device_init_eq false) d).2
      ∧ noExportNoError (device_init_eq_error d).2
      ∧ (∀ bc ls ids p2,
          noExportNoError
            ((device_init_eq_get_capabilities_result bc ls ids p2) d).2)
      ∧ (∀ pid levels,
          noExportNoError
            (device_init_eq_get_preset_and_levels_result pid levels false d).2)
      ∧ (∀ pid levels,
          Effect.exportIface .eq
            ∈ (device_init_eq_get_preset_and_levels_result pid levels true d).2))
    ∧ (noExportNoError ((device_init_auto_power_off false) d).2
      ∧ noExportNoError (device_init_auto_power_off_error d).2
      ∧ (∀ enabled timeout,
          noExportNoError
            (device_init_auto_power_off_result enabled timeout false d).2)
      ∧ (∀ enabled timeout,
          Effect.exportIface .autoPowerOff
            ∈ (device_init_auto_power_off_result enabled timeout true d).2))
    ∧ (noExportNoError ((device_init_key_functions false) d).2
      ∧ noExportNoError (device_init_key_functions_error d).2
      ∧ (∀ p2,
          noExportNoError ((device_init_key_functions_available_result p2) d).2)
      ∧ noExportNoError ((device_init_key_functions_active_result false) d).2
      ∧ Effect.exportIface .keyFunctions
          ∈ ((device_init_key_functions_active_result true) d).2)
    ∧ (noExportNoError ((device_init_playback false) d).2
      ∧ noExportNoError (device_init_playback_error d).2
      ∧ (∀ volume, noExportNoError (device_init_playback_result volume false d).2)
      ∧ (∀ volume,
          Effect.exportIface .playback
            ∈ (device_init_playback_result volume true d).2)) := by
  refine ⟨⟨?_, ?_, ?_, ?_⟩, ⟨?_, ?_, ?_, ?_⟩, ⟨?_, ?_, ?_, ?_⟩, ⟨?_, ?_, ?_, ?_⟩,
    ⟨?_, ?_, ?_, ?_⟩, ⟨?_, ?_, ?_, ?_⟩, ⟨?_, ?_, ?_, ?_, ?_⟩, ⟨?_, ?_, ?_, ?_⟩,
    ⟨?_, ?_, ?_, ?_, ?_⟩, ⟨?_, ?_, ?_, ?_⟩⟩
  · exact ⟨fun i h => by simp [device_init_battery] at h,
           fun s h => by simp [device_init_battery] at h⟩
  · exact noExportNoError_append noExportNoError_warning (noExportNoError_fs d)
  · exact fun level charging =>
      noExportNoError_append noExportNoError_warning (noExportNoError_fs _)
  · intro level charging
    simp [device_init_battery_success, List.mem_append]
  · exact ⟨fun i h => by simp [device_init_left_right_battery] at h,
           fun s h => by simp [device_init_left_right_battery] at h⟩
  · exact noExportNoError_append noExportNoError_warning (noExportNoError_fs d)
  · exact fun ll lc rl rc =>
      noExportNoError_append noExportNoError_warning (noExportNoError_fs _)
  · intro ll lc rl rc
    simp [device_init_left_right_battery_success, List.mem_append]
  · exact ⟨fun i h => by simp [device_init_left_right_connection_status] at h,
           fun s h => by simp [device_init_left_right_connection_status] at h⟩
  · exact noExportNoError_append noExportNoError_warning (noExportNoError_fs d)
  · exact fun lc rc =>
      noExportNoError_append noExportNoError_warning (noExportNoError_fs _)
  · intro lc rc
    simp [device_init_left_right_connection_status_success, List.mem_append]
  · exact ⟨fun i h => by simp [device_init_cradle_battery] at h,
           fun s h => by simp [device_init_cradle_battery] at h⟩
  · exact noExportNoError_append noExportNoError_warning (noExportNoError_fs d)
  · exact fun level charging =>
      noExportNoError_append noExportNoError_warning (noExportNoError_fs _)
  · intro level charging
    simp [device_init_cradle_battery_success, List.mem_append]
  · exact ⟨fun i h => by simp [device_init_noise_cancelling] at h,
           fun s h => by simp [device_init_noise_cancelling] at h⟩
  · exact noExportNoError_append noExportNoError_warning (noExportNoError_fs d)
  · exact fun enabled =>
      noExportNoError_append noExportNoError_warning (noExportNoError_fs _)
  · intro enabled
    simp [device_init_noise_cancelling_success, List.mem_append]
  · exact ⟨fun i h => by simp [device_init_ambient_sound_mode] at h,
           fun s h => by simp [device_init_ambient_sound_mode] at h⟩
  · exact noExportNoError_append noExportNoError_warning (noExportNoError_fs d)
  · exact fun amount voice =>
      noExportNoError_append noExportNoError_warning (noExportNoError_fs _)
  · intro amount voice
    simp [device_init_ambient_sound_mode_success, List.mem_append]
  · exact ⟨fun i h => by simp [device_init_eq] at h,
           fun s h => by simp [device_init_eq] at h⟩
  · exact noExportNoError_append noExportNoError_warning (noExportNoError_fs d)
  · intro bc ls ids p2
    cases p2 <;>
      exact ⟨fun i h => by simp [device_init_eq_get_capabilities_result] at h,
             fun s h => by simp [device_init_eq_get_capabilities_result] at h⟩
  · exact fun pid levels =>
      noExportNoError_append noExportNoError_warning (noExportNoError_fs _)
  · intro pid levels
    simp [device_init_eq_get_preset_and_levels_result, List.mem_append]
  · exact ⟨fun i h => by simp [device_init_auto_power_off] at h,
           fun s h => by simp [device_init_auto_power_off] at h⟩
  · exact noExportNoError_append noExportNoError_warning (noExportNoError_fs _)
  · exact fun enabled timeout =>
      noExportNoError_append noExportNoError_warning (noExportNoError_fs _)
  · intro enabled timeout
    simp [device_init_auto_power_off_result, List.mem_append]
  · exact ⟨fun i h => by simp [device_init_key_functions] at h,
           fun s h => by simp [device_init_key_functions] at h⟩
  · exact noExportNoError_append noExportNoError_warning (noExportNoError_fs _)
  · intro p2
    cases p2 <;>
      exact ⟨fun i h => by simp [device_init_key_functions_available_result] at h,
             fun s h => by simp [device_init_key_functions_available_result] at h⟩
  · exact noExportNoError_append
      ⟨fun i h => by simp at h, fun s h => by simp at h⟩
      (noExportNoError_fs _)
  · simp [device_init_key_functions_active_result, List.mem_append]
  · exact ⟨fun i h => by simp [device_init_playback] at h,
           fun s h => by simp [device_init_playback] at h⟩
  · exact noExportNoError_append noExportNoError_warning (noExportNoError_fs _)
  · exact fun volume =>
      noExportNoError_append noExportNoError_warning (noExportNoError_fs _)
  · intro volume
    simp [device_init_playback_result, List.mem_append]

/-- C3 counterexample: the power-off capability exposes its remotable
    object during capability discovery without issuing any get-request:
    its whole seeding trace is a single export effect, so the object is
    exported although no initial get-request ever succeeded (none was
    even sent). -/
theorem c3_counterexample :
    ((device_init_power_off true) freshDevice).2
      = [Effect.exportIface .powerOff] := rfl

theorem preset_name_ne_unknown (p : Nat) :
    mdr_packet_eqebb_get_preset_name p ≠ some "<Unknown>" := by
  unfold mdr_packet_eqebb_get_preset_name
  split <;> simp

theorem eqPresetsStore_ne_unknown (ids : List Nat) :
    ∀ tbl : Nat → Option String, (∀ i, tbl i ≠ some "<Unknown>") →
      ∀ i, eqPresetsStore tbl ids i ≠ some "<Unknown>" := by
  induction ids with
  | nil => intro tbl h i; exact h i
  | cons p rest ih =>
    intro tbl h i
    have hstep : ∀ j,
        (match mdr_packet_eqebb_get_preset_name p with
          | none => tbl
          | some name => fun i => if i = p then some name else tbl i) j
          ≠ some "<Unknown>" := by
      intro j
      cases hm : mdr_packet_eqebb_get_preset_name p with
      | none => simp only [hm]; exact h j
      | some name =>
        simp only [hm]
        by_cases hj : j = p
        · simp only [hj, if_pos rfl]
          intro heq
          exact preset_name_ne_unknown p (hm.trans heq)
        · simp only [if_neg hj]
          exact h j
    exact ih _ hstep i

theorem set_preset_unknown {d : Device} {name : String} (ok : Bool)
    (h : ∀ i ∈ List.range 0x100, d.eq_presets i ≠ some name) :
    (device_eq_set_preset d name ok).2
      = [Effect.dbusError "org.mdr.InvalidValue"] := by
  have hnone : (List.range 0x100).find?
      (fun i => decide (d.eq_presets i = some name)) = none :=
    List.find?_eq_none.mpr (fun x hx hpx => (h x hx) (of_decide_eq_true hpx))
  simp [device_eq_set_preset, hnone]

/-- C4: on an EQ surface with discovered band_count and level_steps,
    SetPreset with a name not in the discovered preset table returns
    org.mdr.InvalidValue synchronously (and that is its whole effect
    trace: no wire traffic), a known name is never rejected with
    InvalidValue; SetLevels with the wrong number of bands, or with any
    level at or above level_steps, returns org.mdr.InvalidValue with no
    wire traffic, and a list of exactly band_count levels all below
    level_steps is submitted to the device; and the preset table built by
    capability discovery never contains the read-only Unknown
    placeholder, so SetPreset of that string is always rejected. -/
theorem c4_eq_validation (d : Device) (name : String) (ok : Bool)
    (levels : List Nat) :
    ((∀ i ∈ List.range 0x100, d.eq_presets i ≠ some name) →
      (device_eq_set_preset d name ok).2
        = [Effect.dbusError "org.mdr.InvalidValue"])
    ∧ ((∃ i ∈ List.range 0x100, d.eq_presets i = some name) →
      Effect.dbusError "org.mdr.InvalidValue" ∉ (device_eq_set_preset d name ok).2)
    ∧ (levels.length ≠ d.eq_band_count →
      (device_eq_set_levels d levels).2
        = [Effect.dbusError "org.mdr.InvalidValue"])
    ∧ ((∃ l ∈ levels, d.eq_level_steps ≤ l) →
      (device_eq_set_levels d levels).2
        = [Effect.dbusError "org.mdr.InvalidValue"])
    ∧ (levels.length = d.eq_band_count → (∀ l ∈ levels, l < d.eq_level_steps) →
      (device_eq_set_levels d levels).2
        = (if d.eq_iface then [Effect.setEqLevelsProp levels] else [])
          ++ [Effect.wire (.setEqLevels levels)])
    ∧ (∀ bc ls ids p2 (d0 : Device),
        (∀ i, d0.eq_presets i ≠ some "<Unknown>") →
        (device_eq_set_preset
            ((device_init_eq_get_capabilities_result bc ls ids p2) d0).1
            "<Unknown>" ok).2
          = [Effect.dbusError "org.mdr.InvalidValue"]) := by
  refine ⟨fun h => set_preset_unknown ok h, ?_, ?_, ?_, ?_, ?_⟩
  · intro h
    obtain ⟨i, hi, hp⟩ := h
    have hsome : ((List.range 0x100).find?
        (fun i => decide (d.eq_presets i = some name))).isSome :=
      List.find?_isSome.mpr ⟨i, hi, by simp [hp]⟩
    obtain ⟨pid, hfind⟩ := Option.isSome_iff_exists.mp hsome
    cases ok <;> simp [device_eq_set_preset, hfind]
  · intro h
    simp [device_eq_set_levels, h]
  · intro h
    by_cases hlen : levels.length ≠ d.eq_band_count
    · simp [device_eq_set_levels, hlen]
    · obtain ⟨l, hl, hge⟩ := h
      have hany : levels.any (fun l => d.eq_level_steps ≤ l) = true :=
        List.any_eq_true.mpr ⟨l, hl, by simp [hge]⟩
      simp [device_eq_set_levels, hlen, hany]
  · intro hlen hall
    have hlen' : ¬ levels.length ≠ d.eq_band_count := by omega
    have hany : levels.any (fun l => d.eq_level_steps ≤ l) = false := by
      rw [List.any_eq_false]
      intro l hl
      simp [Nat.not_le.mpr (hall l hl)]
    simp [device_eq_set_levels, hlen', hany]
  · intro bc ls ids p2 d0 h0
    exact set_preset_unknown ok
      (fun i _ => eqPresetsStore_ne_unknown ids d0.eq_presets h0 i)

theorem c4_eq_validation_witness :
    (device_eq_set_preset eqSampleDevice "Unknown" true).2
        = [Effect.dbusError "org.mdr.InvalidValue"]
    ∧ (device_eq_set_levels eqSampleDevice [0, 0, 0, 0, 0, 0]).2
        = [Effect.dbusError "org.mdr.InvalidValue"]
    ∧ (device_eq_set_levels eqSampleDevice [20, 0, 0, 0, 21]).2
        = [Effect.dbusError "org.mdr.InvalidValue"]
    ∧ (device_eq_set_levels eqSampleDevice [1, 2, 3, 4, 5]).2
        = [Effect.setEqLevelsProp [1, 2, 3, 4, 5],
           Effect.wire (.setEqLevels [1, 2, 3, 4, 5])] :=
  ⟨(c4_eq_validation eqSampleDevice "Unknown" true [0]).1 (by decide),
   (c4_eq_validation eqSampleDevice "x" true [0, 0, 0, 0, 0, 0]).2.2.1 (by decide),
   (c4_eq_validation eqSampleDevice "x" true [20, 0, 0, 0, 21]).2.2.2.1
     (by decide),
   (c4_eq_validation eqSampleDevice "x" true [1, 2, 3, 4, 5]).2.2.2.2.1
     (by decide) (by decide)⟩

/-- C6 (amended): AmbientSoundMode.SetMode rejects every string other
    than voice and normal with the typed bus error org.mdr.InvalidASMMode
    (not org.mdr.InvalidValue) and sends nothing to the device; the two
    valid strings are sent with the cached amount. -/
theorem c6_set_mode (d : Device) (name : String)
    (h1 : name ≠ "voice") (h2 : name ≠ "normal") :
    (device_ambient_sound_mode_set_mode d name).2
        = [Effect.dbusError "org.mdr.InvalidASMMode"]
    ∧ (∀ r, Effect.wire r ∉ (device_ambient_sound_mode_set_mode d name).2)
    ∧ (device_ambient_sound_mode_set_mode d "voice").2
        = [Effect.wire (.enableAsm d.asm_amount true)]
    ∧ (device_ambient_sound_mode_set_mode d "normal").2
        = [Effect.wire (.enableAsm d.asm_amount false)] := by
  have he : (device_ambient_sound_mode_set_mode d name).2
      = [Effect.dbusError "org.mdr.InvalidASMMode"] := by
    simp [device_ambient_sound_mode_set_mode, h1, h2]
  refine ⟨he, fun r hr => by rw [he] at hr; simp at hr,
    by simp [device_ambient_sound_mode_set_mode],
    by simp [device_ambient_sound_mode_set_mode]⟩

theorem c6_set_mode_witness :
    (device_ambient_sound_mode_set_mode freshDevice "foo").2
      = [Effect.dbusError "org.mdr.InvalidASMMode"] :=
  (c6_set_mode freshDevice "foo" (by decide) (by decide)).1

/-- C6 counterexample: a bad mode string is answered with the bus error
    org.mdr.InvalidASMMode; org.mdr.InvalidValue, which the claim names,
    is never returned. -/
theorem c6_counterexample :
    (device_ambient_sound_mode_set_mode freshDevice "foo").2
        = [Effect.dbusError "org.mdr.InvalidASMMode"]
    ∧ Effect.dbusError "org.mdr.InvalidValue"
        ∉ (device_ambient_sound_mode_set_mode freshDevice "foo").2 := by
  exact ⟨by decide, by decide⟩

/-- C7: SetAmount never rejects; the amount submitted to the device is
    the argument itself when it is at most 255 and 255 otherwise, always
    paired with the cached voice flag. -/
theorem c7_set_amount_clamps (d : Device) (amount : Nat) (h : amount < 2 ^ 32) :
    (device_ambient_sound_mode_set_amount d amount).2
      = [Effect.wire (.enableAsm (if amount ≤ 0xff then amount else 0xff)
          d.asm_voice)]
    ∧ (∀ s, Effect.dbusError s ∉ (device_ambient_sound_mode_set_amount d amount).2) := by
  constructor
  · by_cases h255 : amount ≤ 0xff
    · have hn : ¬ (0xff : Nat) < amount := by omega
      simp [device_ambient_sound_mode_set_amount, h255, hn]
    · have hy : (0xff : Nat) < amount := by omega
      simp [device_ambient_sound_mode_set_amount, h255, hy]
  · intro s hs
    simp [device_ambient_sound_mode_set_amount] at hs

theorem c7_set_amount_clamps_witness :
    (device_ambient_sound_mode_set_amount freshDevice 300).2
      = [Effect.wire (.enableAsm (if 300 ≤ 0xff then 300 else 0xff)
          freshDevice.asm_voice)] :=
  (c7_set_amount_clamps freshDevice 300 (by decide)).1

/-- C8: SetTimeout accepts exactly Off (disable request), 5, 30, 60 and
    180 minutes (enable request with the matching wire id); every other
    string, including the Unknown placeholder, is answered with
    org.mdr.InvalidValue and nothing is sent; and every (enabled,
    timeout) pair the device reports is exposed as one of the five
    strings or as the Unknown placeholder. -/
theorem c8_auto_power_off (d : Device) (t : String) (enabled : Bool)
    (code : ApoTimeoutId)
    (hOff : t ≠ "Off") (h5 : t ≠ "5 min") (h30 : t ≠ "30 min")
    (h60 : t ≠ "60 min") (h180 : t ≠ "180 min") :
    (device_auto_power_off_set_timeout d "Off").2
        = [Effect.wire .disableAutoPowerOff]
    ∧ (device_auto_power_off_set_timeout d "5 min").2
        = [Effect.wire (.enableAutoPowerOff .in5Min)]
    ∧ (device_auto_power_off_set_timeout d "30 min").2
        = [Effect.wire (.enableAutoPowerOff .in30Min)]
    ∧ (device_auto_power_off_set_timeout d "60 min").2
        = [Effect.wire (.enableAutoPowerOff .in60Min)]
    ∧ (device_auto_power_off_set_timeout d "180 min").2
        = [Effect.wire (.enableAutoPowerOff .in180Min)]
    ∧ (device_auto_power_off_set_timeout d t).2
        = [Effect.dbusError "org.mdr.InvalidValue"]
    ∧ (device_auto_power_off_set_timeout d "<Unknown>").2
        = [Effect.dbusError "org.mdr.InvalidValue"]
    ∧ (d.auto_power_off_iface = true →
        ((device_auto_power_off_update enabled code) d).2
          = [Effect.setApoTimeoutProp (apoTimeoutDisplay enabled code)])
    ∧ apoTimeoutDisplay enabled code ∈ apoDisplayChoices := by
  refine ⟨by simp [device_auto_power_off_set_timeout],
    by simp [device_auto_power_off_set_timeout],
    by simp [device_auto_power_off_set_timeout],
    by simp [device_auto_power_off_set_timeout],
    by simp [device_auto_power_off_set_timeout],
    by simp [device_auto_power_off_set_timeout, hOff, h5, h30, h60, h180],
    by simp [device_auto_power_off_set_timeout],
    fun hif => by simp [device_auto_power_off_update, hif], ?_⟩
  cases enabled
  · simp [apoTimeoutDisplay, apoDisplayChoices]
  · cases code <;>
      simp [apoTimeoutDisplay, auto_power_off_timeout_to_string, apoDisplayChoices]

theorem c8_auto_power_off_witness :
    (device_auto_power_off_set_timeout freshDevice "7 min").2
      = [Effect.dbusError "org.mdr.InvalidValue"] :=
  (c8_auto_power_off freshDevice "7 min" true (.other 9) (by decide) (by decide)
    (by decide) (by decide) (by decide)).2.2.2.2.2.1

/-- C10: the cached ambient-sound pair is left untouched by both set
    handlers (the device state is unchanged altogether) and is written by
    the notification handler; SetAmount sends the clamped amount with the
    cached mode, SetMode sends the cached amount with the new mode. -/
theorem c10_asm_frame (d : Device) (amount a2 : Nat) (voice : Bool)
    (name : String) :
    (device_ambient_sound_mode_set_amount d amount).1 = d
    ∧ (device_ambient_sound_mode_set_mode d name).1 = d
    ∧ ((device_ambient_sound_mode_update a2 voice) d).1.asm_amount = a2
    ∧ ((device_ambient_sound_mode_update a2 voice) d).1.asm_voice = voice
    ∧ (device_ambient_sound_mode_set_amount d amount).2
        = [Effect.wire (.enableAsm (if 0xff < amount then 0xff else amount)
            d.asm_voice)]
    ∧ (device_ambient_sound_mode_set_mode d "voice").2
        = [Effect.wire (.enableAsm d.asm_amount true)]
    ∧ (device_ambient_sound_mode_set_mode d "normal").2
        = [Effect.wire (.enableAsm d.asm_amount false)] := by
  refine ⟨rfl, ?_, rfl, rfl, rfl,
    by simp [device_ambient_sound_mode_set_mode],
    by simp [device_ambient_sound_mode_set_mode]⟩
  by_cases hv : name = "voice"
  · simp [device_ambient_sound_mode_set_mode, hv]
  · by_cases hn : name = "normal" <;>
      simp [device_ambient_sound_mode_set_mode, hv, hn]

theorem tableLookup_insert (t : DeviceTable) (name : String) (d : Device) :
    tableLookup (tableInsert t name d) name = some d := by
  simp only [tableLookup, tableInsert]
  rw [List.find?_cons_of_pos _ (by simp)]
  rfl

/-- C9: a NewConnection invocation with no file-descriptor list, or one
    whose session allocation fails, is answered with
    org.bluez.Error.Rejected and the device table is untouched; otherwise
    the file descriptor is adopted as a session keyed by the given device
    path, and when initialisation (handshake, model-name request and
    identity export) completes, the table holds the session under that
    path and the invocation is answered with empty success, never with
    Rejected. -/
theorem c9_new_connection (t : DeviceTable) (path : String) (a : AllocStep)
    (sf : SupportedFunctions) (sub : SeededCap → Bool) (po : Bool)
    (ph : InitPhase) (hA : a ≠ .allocOk) :
    (newConnectionRun t path false a ph sf sub po
        = (t, [Effect.dbusError "org.bluez.Error.Rejected"]))
    ∧ (newConnectionRun t path true a ph sf sub po
        = (t, [Effect.dbusError "org.bluez.Error.Rejected"]))
    ∧ (tableLookup
        (newConnectionRun t path true .allocOk (.nameOk true) sf sub po).1 path
          = some (runCapInits sf sub po { freshDevice with device_iface := true }).1)
    ∧ Effect.dbusReplyEmpty
        ∈ (newConnectionRun t path true .allocOk (.nameOk true) sf sub po).2
    ∧ Effect.dbusError "org.bluez.Error.Rejected"
        ∉ (newConnectionRun t path true .allocOk (.nameOk true) sf sub po).2 := by
  have heff : (newConnectionRun t path true .allocOk (.nameOk true) sf sub po).2
      = Effect.wire .initHandshake :: Effect.wire .getModelName ::
          (sessionStart path sf sub po).2 := rfl
  refine ⟨rfl, ?_, ?_, ?_, ?_⟩
  · cases a with
    | mallocDeviceFail => rfl
    | mallocInitDataFail => rfl
    | mdrNewFail => rfl
    | allocOk => exact absurd rfl hA
  · exact tableLookup_insert t path _
  · rw [heff, sessionStart_effects]
    simp
  · rw [heff]
    intro hmem
    rcases List.mem_cons.mp hmem with h | h
    · simp at h
    rcases List.mem_cons.mp h with h | h
    · simp at h
    exact sessionStart_noerr path sf sub po _ h

theorem c9_new_connection_witness :
    newConnectionRun [] "dev" true AllocStep.mdrNewFail (.nameOk true)
        sfBatteryOnly subAll true
      = ([], [Effect.dbusError "org.bluez.Error.Rejected"]) :=
  (c9_new_connection [] "dev" AllocStep.mdrNewFail sfBatteryOnly subAll true
    (.nameOk true) (by decide)).2.1
